import Mathlib

/-!
Verification of the render batch compositor of `Source/Urho3D/RenderPipeline/BatchRenderer.cpp`
(rbfx engine fork).

The development shallowly embeds the compositor: machine floats become rationals,
pointers become natural-number handles (`Option Nat` where the pointer may be null),
external collaborators (light processors, materials, geometries, the scene, the
drawable processor, the instancing buffer) become an explicit read-only environment
`RenderEnv`, and the destination `DrawCommandQueue` becomes an explicit list of
emitted commands.  The compositor itself (`DrawCommandCompositor`) becomes a state
structure `CompositorState` with one transition function per member function of the
C++ class.
-/

namespace BatchRendererProof

/-! ## Scalar and vector values -/

/-- Machine `float` values are embedded as rationals. -/
abbrev Val := ℚ

/-- `Urho3D::Vector3`, embedded componentwise. -/
abbrev V3 := Val × Val × Val

/-- `Urho3D::Vector4`, embedded componentwise. -/
abbrev V4 := Val × Val × Val × Val

/-- `M_EPSILON` from `MathDefs.h` (`0.000001f`). -/
def M_EPSILON : Val := 1 / 1000000

/-- `M_LARGE_EPSILON` from `MathDefs.h` (`0.00005f`). -/
def M_LARGE_EPSILON : Val := 5 / 100000

/-- `M_MAX_UNSIGNED` (`0xffffffff`), the "no light" sentinel index. -/
def M_MAX_UNSIGNED : Nat := 4294967295

/-- `MAX_VERTEX_LIGHTS` from `GraphicsDefs.h`. -/
def MAX_VERTEX_LIGHTS : Nat := 4

/-! ## Pure shader-constant derivation (anonymous-namespace helpers) -/

/-- `GetCameraDepthModeParameter`: the camera is abstracted to its orthographic
flag and far clip; the `URHO3D_OPENGL` compile-time backend switch becomes the
`opengl` argument.  The source starts from `Vector4::ZERO` and assigns `x_ = 1`
plus the backend-dependent `z_`/`w_` split for orthographic cameras, or
`w_ = 1 / farClip` for perspective cameras. -/
def getCameraDepthModeParameter (opengl isOrthographic : Bool) (farClip : Val) : V4 :=
  if isOrthographic then
    if opengl then (1, 0, 0.5, 0.5) else (1, 0, 1, 0)
  else
    (0, 0, 0, 1 / farClip)

/-- `GetFogParameter`: `fogEnd` computation (`Min(camera.GetEffectiveFogStart(), farClip)`;
note the source derives it from the fog *start*, not a separate fog-end source). -/
def fogEndOf (effectiveFogStart farClip : Val) : Val :=
  min effectiveFogStart farClip

/-- `GetFogParameter`: the `fogStart` value after the underflow clamp
`if (fogStart >= fogEnd * (1 - M_LARGE_EPSILON)) fogStart = fogEnd * (1 - M_LARGE_EPSILON)`. -/
def fogStartOf (effectiveFogStart farClip : Val) : Val :=
  let fogStart := min effectiveFogStart farClip
  if fogStart ≥ fogEndOf effectiveFogStart farClip * (1 - M_LARGE_EPSILON) then
    fogEndOf effectiveFogStart farClip * (1 - M_LARGE_EPSILON)
  else fogStart

/-- `GetFogParameter`: `fogRange = Max(fogEnd - fogStart, M_EPSILON)`. -/
def fogRangeOf (effectiveFogStart farClip : Val) : Val :=
  max (fogEndOf effectiveFogStart farClip - fogStartOf effectiveFogStart farClip) M_EPSILON

/-- `GetFogParameter`: the returned shader constant
`{fogEnd / farClip, farClip / fogRange, 0, 0}`. -/
def getFogParameter (effectiveFogStart farClip : Val) : V4 :=
  (fogEndOf effectiveFogStart farClip / farClip,
   farClip / fogRangeOf effectiveFogStart farClip, 0, 0)

/-! ## External data model

The types below mirror declarations that live in headers of the same repository
(`GraphicsDefs.h`, `Drawable.h`, `PipelineBatchSortKey.h`, `LightProcessor.h`, ...)
and are consumed by `BatchRenderer.cpp`.  Pointers become `Nat` handles
(`Option Nat` when nullable); dereferences go through `RenderEnv`. -/

/-- `GeometryType` from `GraphicsDefs.h`. -/
inductive GeometryType where
  | GEOM_STATIC
  | GEOM_SKINNED
  | GEOM_INSTANCED
  | GEOM_BILLBOARD
  | GEOM_DIRBILLBOARD
  | GEOM_TRAIL_FACE_CAMERA
  | GEOM_TRAIL_BONE
deriving DecidableEq, Repr

/-- `ShaderParameterGroup` from `GraphicsDefs.h`. -/
inductive ShaderParameterGroup where
  | SP_FRAME
  | SP_CAMERA
  | SP_ZONE
  | SP_LIGHT
  | SP_MATERIAL
  | SP_OBJECT
  | SP_CUSTOM
deriving DecidableEq, Repr

/-- Texture units from `GraphicsDefs.h`; only the identities matter here. -/
def TU_EMISSIVE : Nat := 3

/-- `TU_LIGHTRAMP` texture unit. -/
def TU_LIGHTRAMP : Nat := 8

/-- `TU_LIGHTSHAPE` texture unit. -/
def TU_LIGHTSHAPE : Nat := 9

/-- `TU_SHADOWMAP` texture unit. -/
def TU_SHADOWMAP : Nat := 10

/-- `LightShaderParameters` (from `LightProcessor.h`, not under the supplied
sources).  Modelled from the spec: the light processor "supplies resolved
per-light shader parameter bundle (direction, position, color, range, shadow
parameters, matrices) and texture references (ramp/shape/shadow map)";
`GetColor(gammaCorrection)` selects between the linear-space and gamma-space
color of the light.  All value fields default to zero and all texture references
to null, which is the "null light" default bundle the spec requires for unused
vertex-light slots (zero color, zero direction, zero position, default
attenuation values). -/
structure LightShaderParameters where
  direction : V3 := (0, 0, 0)
  position : V3 := (0, 0, 0)
  invRange : Val := 0
  colorGamma : V3 := (0, 0, 0)
  colorLinear : V3 := (0, 0, 0)
  specularIntensity : Val := 0
  cutoff : Val := 0
  invCutoff : Val := 0
  lightRamp : Option Nat := none
  lightShape : Option Nat := none
  shadowMap : Option Nat := none
deriving DecidableEq, Repr

/-- `LightShaderParameters::GetColor(bool)`: the color in the active color space. -/
def LightShaderParameters.GetColor (p : LightShaderParameters) (gammaCorrection : Bool) : V3 :=
  if gammaCorrection then p.colorLinear else p.colorGamma

/-- `static const LightShaderParameters nullVertexLight{}` from
`CheckDirtyVertexLight`: the default-constructed bundle. -/
def nullVertexLight : LightShaderParameters := {}

/-- `SourceBatch` (from `Drawable.h`): the per-drawable source data consumed by
the compositor.  Only the fields read by `BatchRenderer.cpp` are modelled;
defaults follow the member initializers of the header (identity transform
pointer, one transform, static geometry, no lightmap). -/
structure SourceBatch where
  worldTransform : Nat := 0
  numWorldTransforms : Nat := 1
  geometryType : GeometryType := .GEOM_STATIC
  lightmapScaleOffset : Option Nat := none
  lightmapIndex : Nat := 0
deriving DecidableEq, Repr

/-- `PipelineBatch` (from `PipelineBatchSortKey.h`): immutable descriptor of one
draw.  `pipelineState`, `material` and `geometry` are non-null pointers
(handles); `lightIndex = M_MAX_UNSIGNED` means "no pixel light". -/
structure PipelineBatch where
  drawableIndex : Nat := 0
  sourceBatchIndex : Nat := 0
  lightIndex : Nat := M_MAX_UNSIGNED
  pipelineState : Nat := 0
  material : Nat := 0
  geometry : Nat := 0
  geometryType : GeometryType := .GEOM_STATIC
deriving DecidableEq, Repr

/-- The data reachable from a `Geometry*`: index buffer (nullable), vertex
buffer set and draw ranges. -/
structure GeometryData where
  indexBuffer : Option Nat := none
  vertexBuffers : Nat := 0
  indexStart : Nat := 0
  indexCount : Nat := 0
  vertexStart : Nat := 0
  vertexCount : Nat := 0
deriving DecidableEq, Repr

/-- The read-only world the compositor dereferences pointers and indices
through: pipeline-state descriptors, geometries, material maps, light
processors, the scene's lightmap registry, the drawable processor's
lighting accumulators and the instancing buffer's vertex buffer. -/
structure RenderEnv where
  constantDepthBias : Nat → Val
  geom : Nat → GeometryData
  materialTextures : Nat → List (Nat × Nat)
  lightParams : Nat → LightShaderParameters
  lightmapTexture : Nat → Option Nat
  vertexLightsOf : Nat → List Nat
  sphericalHarmonicsOf : Nat → Nat
  shAverage : Nat → V3
  linearToGammaColor : V3 → V4
  sourceBatchOf : Nat → Nat → SourceBatch
  lightVolumeTransform : Nat → Nat
  instancingVertexBuffer : Nat

/-- `AmbientMode` from the render-pipeline settings. -/
inductive AmbientMode where
  | Constant
  | Flat
  | Directional
deriving DecidableEq, Repr

/-- `BatchRendererSettings` fields read by the compositor. -/
structure BatchRendererSettings where
  gammaCorrection : Bool := false
  ambientMode : AmbientMode := .Constant
deriving DecidableEq, Repr

/-- `BatchRenderFlags`: the per-pass feature flag set. -/
structure BatchRenderFlags where
  ambientLight : Bool := false
  vertexLights : Bool := false
  pixelLight : Bool := false
  instantiateStaticGeometry : Bool := false
deriving DecidableEq, Repr

/-- `DrawCommandCompositor::EnabledFeatureFlags`, derived from the render flags. -/
structure EnabledFeatureFlags where
  ambientLighting : Bool
  vertexLighting : Bool
  pixelLighting : Bool
  anyLighting : Bool
  staticInstancing : Bool
deriving DecidableEq, Repr

/-- The `EnabledFeatureFlags(BatchRenderFlags)` constructor. -/
def mkEnabledFeatureFlags (flags : BatchRenderFlags) : EnabledFeatureFlags :=
  { ambientLighting := flags.ambientLight
    vertexLighting := flags.vertexLights
    pixelLighting := flags.pixelLight
    anyLighting := flags.ambientLight || flags.vertexLights || flags.pixelLight
    staticInstancing := flags.instantiateStaticGeometry }

/-- The immutable construction context of one `DrawCommandCompositor`:
settings, enabled features, the optional output shadow split and the global
pass resources. -/
structure CompositorConfig where
  settings : BatchRendererSettings := {}
  enabled : EnabledFeatureFlags := mkEnabledFeatureFlags {}
  outputShadowSplit : Option Nat := none
  globalResources : List (Nat × Nat) := []

/-! ## Draw command queue

The external `DrawCommandQueue` (spec section 6) is modelled as the list of
commands it has accepted, plus the set of shader-parameter groups initialized so
far (`BeginShaderParameterGroup(group, dirty)` reports whether the group must be
refilled: it is dirty or was never committed). -/

/-- One operation accepted by the `DrawCommandQueue`.  Individual
`AddShaderParameter` payload writes are not tracked; group commits are. -/
inductive DrawCommand where
  | setPipelineState (pipelineState : Nat)
  | commitShaderParameterGroup (group : ShaderParameterGroup)
  | addShaderResource (unit : Nat) (texture : Nat)
  | commitShaderResources
  | setBuffers (vertexBuffers : Nat) (indexBuffer : Option Nat) (instancingBuffer : Option Nat)
  | draw (vertexStart vertexCount : Nat)
  | drawIndexed (indexStart indexCount : Nat)
  | drawIndexedInstanced (indexStart indexCount instanceStart instanceCount : Nat)
deriving DecidableEq, Repr

/-- The observable state of the destination draw queue. -/
structure DrawQueueState where
  commands : List DrawCommand := []
  committed : List ShaderParameterGroup := []
deriving DecidableEq, Repr

/-- Append one command to the queue. -/
def DrawQueueState.push (q : DrawQueueState) (c : DrawCommand) : DrawQueueState :=
  { q with commands := q.commands ++ [c] }

/-- `DrawCommandQueue::BeginShaderParameterGroup(group, dirty)`: the group must
be (re)written iff it is dirty or has never been committed on this queue. -/
def DrawQueueState.beginShaderParameterGroup (q : DrawQueueState)
    (group : ShaderParameterGroup) (dirty : Bool) : Bool :=
  dirty || !(q.committed.contains group)

/-- `DrawCommandQueue::CommitShaderParameterGroup(group)`. -/
def DrawQueueState.commitShaderParameterGroup (q : DrawQueueState)
    (group : ShaderParameterGroup) : DrawQueueState :=
  { commands := q.commands ++ [DrawCommand.commitShaderParameterGroup group]
    committed := group :: q.committed }

/-! ## Compositor state -/

/-- `DrawCommandCompositor::DirtyStateFlags`, with the member initializers of
the source (`frameConstants_` and `cameraConstants_` start dirty). -/
structure DirtyStateFlags where
  pipelineState : Bool := false
  frameConstants : Bool := true
  cameraConstants : Bool := true
  pixelLightConstants : Bool := false
  pixelLightTextures : Bool := false
  vertexLightConstants : Bool := false
  lightmapConstants : Bool := false
  lightmapTextures : Bool := false
  material : Bool := false
  geometry : Bool := false
deriving DecidableEq, Repr

/-- `DirtyStateFlags::IsAnyStateDirty`. -/
def DirtyStateFlags.IsAnyStateDirty (d : DirtyStateFlags) : Bool :=
  d.pipelineState || d.frameConstants || d.cameraConstants
    || d.pixelLightConstants || d.pixelLightTextures || d.vertexLightConstants
    || d.lightmapConstants || d.lightmapTextures || d.material || d.geometry

/-- `DrawCommandCompositor::CachedSharedState` (`current_`), with the member
initializers of the source. -/
structure CachedSharedState where
  pipelineState : Option Nat := none
  constantDepthBias : Val := 0
  pixelLightIndex : Nat := M_MAX_UNSIGNED
  pixelLightEnabled : Bool := false
  pixelLightParams : Option LightShaderParameters := none
  pixelLightRamp : Option Nat := none
  pixelLightShape : Option Nat := none
  pixelLightShadowMap : Option Nat := none
  vertexLights : List Nat := List.replicate MAX_VERTEX_LIGHTS 0
  vertexLightsData : List V4 := List.replicate (MAX_VERTEX_LIGHTS * 3) (0, 0, 0, 0)
  lightmapTexture : Option Nat := none
  lightmapScaleOffset : Option Nat := none
  material : Option Nat := none
  geometry : Option Nat := none
deriving DecidableEq, Repr

/-- `DrawCommandCompositor::ObjectState` (`object_`). -/
structure ObjectState where
  sh : Nat := 0
  ambient : V4 := (0, 0, 0, 0)
  geometryType : GeometryType := .GEOM_STATIC
  worldTransform : Nat := 0
  numWorldTransforms : Nat := 0
deriving DecidableEq, Repr

/-- `DrawCommandCompositor::InstancingGroupState` (`instancingGroup_`): the one
and only instancing accumulator of the compositor. -/
structure InstancingGroupState where
  geometry : Option Nat := none
  start : Nat := 0
  count : Nat := 0
deriving DecidableEq, Repr

/-- The full mutable state of one `DrawCommandCompositor`, together with the
draw queue it writes to and the instancing buffer allocation counter
(`InstancingBufferCompositor::AddInstance` returns consecutive slot indices).
`openRunBatches` is ghost instrumentation, not present in the source: it records
the pipeline batches accumulated into the currently open instancing run (filled
when a run begins or continues, cleared on flush) so the run invariants can be
stated; no transition reads it. -/
structure CompositorState where
  dirty : DirtyStateFlags := {}
  current : CachedSharedState := {}
  object : ObjectState := {}
  instancingGroup : InstancingGroupState := {}
  queue : DrawQueueState := {}
  instancingBufferNext : Nat := 0
  openRunBatches : List PipelineBatch := []
deriving DecidableEq, Repr

/-- The state of a freshly constructed compositor. -/
def initState : CompositorState := {}

/-! ## Extract and process batch state (no draw-queue changes) -/

/-- `DrawCommandCompositor::CheckDirtyCommonState`: pipeline-state, depth-bias,
material and geometry dirtiness, with the cache updated to the new values. -/
def checkDirtyCommonState (env : RenderEnv) (s : CompositorState)
    (b : PipelineBatch) : CompositorState :=
  let dirty1 := { s.dirty with pipelineState := decide (s.current.pipelineState ≠ some b.pipelineState) }
  let current1 := { s.current with pipelineState := some b.pipelineState }
  let constantDepthBias := env.constantDepthBias b.pipelineState
  let current2 :=
    if current1.constantDepthBias ≠ constantDepthBias then
      { current1 with constantDepthBias := constantDepthBias }
    else current1
  let dirty2 :=
    if current1.constantDepthBias ≠ constantDepthBias then
      { dirty1 with cameraConstants := true }
    else dirty1
  let dirty3 := { dirty2 with material := decide (current2.material ≠ some b.material) }
  let current3 := { current2 with material := some b.material }
  let dirty4 := { dirty3 with geometry := decide (current3.geometry ≠ some b.geometry) }
  let current4 := { current3 with geometry := some b.geometry }
  { s with dirty := dirty4, current := current4 }

/-- `DrawCommandCompositor::CheckDirtyPixelLight`: keyed on light index; on a
change, re-derive the parameter bundle and the texture-binding dirtiness.  Note
the early return: when the light index is unchanged, `pixelLightTextures_`
keeps its previous value. -/
def checkDirtyPixelLight (env : RenderEnv) (s : CompositorState)
    (b : PipelineBatch) : CompositorState :=
  let dirty0 := { s.dirty with pixelLightConstants := decide (s.current.pixelLightIndex ≠ b.lightIndex) }
  if dirty0.pixelLightConstants = false then { s with dirty := dirty0 }
  else
    let current1 := { s.current with
      pixelLightIndex := b.lightIndex
      pixelLightEnabled := decide (b.lightIndex ≠ M_MAX_UNSIGNED) }
    if current1.pixelLightEnabled then
      let params := env.lightParams current1.pixelLightIndex
      let current2 := { current1 with pixelLightParams := some params }
      let texturesDirty := decide (current2.pixelLightRamp ≠ params.lightRamp)
        || decide (current2.pixelLightShape ≠ params.lightShape)
        || decide (current2.pixelLightShadowMap ≠ params.shadowMap)
      let dirty1 := { dirty0 with pixelLightTextures := texturesDirty }
      let current3 :=
        if texturesDirty then
          { current2 with
            pixelLightRamp := params.lightRamp
            pixelLightShape := params.lightShape
            pixelLightShadowMap := params.shadowMap }
        else current2
      { s with dirty := dirty1, current := current3 }
    else
      { s with dirty := dirty0, current := current1 }

/-- One vertex-light slot: the three `Vector4` rows written for slot data
`{color, invRange}`, `{direction, cutoff}`, `{position, invCutoff}`, taking the
null light for the `M_MAX_UNSIGNED` sentinel. -/
def vertexLightSlotData (settings : BatchRendererSettings) (env : RenderEnv)
    (index : Nat) : List V4 :=
  let params := if index ≠ M_MAX_UNSIGNED then env.lightParams index else nullVertexLight
  let color := params.GetColor settings.gammaCorrection
  [ (color.1, color.2.1, color.2.2, params.invRange),
    (params.direction.1, params.direction.2.1, params.direction.2.2, params.cutoff),
    (params.position.1, params.position.2.1, params.position.2.2, params.invCutoff) ]

/-- `DrawCommandCompositor::CheckDirtyVertexLight`: keyed on the ordered
fixed-size vertex-light index container (order-sensitive equality); on a
change, all `MAX_VERTEX_LIGHTS` slots are recomputed. -/
def checkDirtyVertexLight (settings : BatchRendererSettings) (env : RenderEnv)
    (s : CompositorState) (vertexLights : List Nat) : CompositorState :=
  let previousVertexLights := s.current.vertexLights
  let current1 := { s.current with vertexLights := vertexLights }
  let dirty1 := { s.dirty with vertexLightConstants := decide (previousVertexLights ≠ vertexLights) }
  if dirty1.vertexLightConstants = false then { s with current := current1, dirty := dirty1 }
  else
    let data := (List.range MAX_VERTEX_LIGHTS).flatMap
      (fun i => vertexLightSlotData settings env (vertexLights.getD i M_MAX_UNSIGNED))
    { s with current := { current1 with vertexLightsData := data }, dirty := dirty1 }

/-- `DrawCommandCompositor::CheckDirtyLightmap`: keyed on the identity of the
lightmap scale/offset record; on a change, resolve the concrete lightmap
texture and flag texture dirtiness when its identity changed.  The early return
leaves `lightmapTextures_` at its previous value. -/
def checkDirtyLightmap (env : RenderEnv) (s : CompositorState)
    (sb : SourceBatch) : CompositorState :=
  let dirty0 := { s.dirty with lightmapConstants := decide (s.current.lightmapScaleOffset ≠ sb.lightmapScaleOffset) }
  if dirty0.lightmapConstants = false then { s with dirty := dirty0 }
  else
    let current1 := { s.current with lightmapScaleOffset := sb.lightmapScaleOffset }
    let lightmapTexture :=
      if current1.lightmapScaleOffset.isSome then env.lightmapTexture sb.lightmapIndex else none
    let dirty1 := { dirty0 with lightmapTextures := decide (current1.lightmapTexture ≠ lightmapTexture) }
    { s with dirty := dirty1, current := { current1 with lightmapTexture := lightmapTexture } }

/-- `DrawCommandCompositor::ExtractObjectConstants`: ambient term (flat mode
evaluates the spherical-harmonics average, directional mode keeps the
harmonics reference) plus geometry type and transforms. -/
def extractObjectConstants (cfg : CompositorConfig) (env : RenderEnv)
    (s : CompositorState) (sb : SourceBatch) (drawableIndex : Nat) : CompositorState :=
  let obj0 := s.object
  let obj1 :=
    if cfg.enabled.ambientLighting then
      if cfg.settings.ambientMode = AmbientMode.Flat then
        let ambient := env.shAverage (env.sphericalHarmonicsOf drawableIndex)
        if cfg.settings.gammaCorrection then
          { obj0 with ambient := (ambient.1, ambient.2.1, ambient.2.2, 1) }
        else
          { obj0 with ambient := env.linearToGammaColor ambient }
      else if cfg.settings.ambientMode = AmbientMode.Directional then
        { obj0 with sh := env.sphericalHarmonicsOf drawableIndex }
      else obj0
    else obj0
  { s with object := { obj1 with
      geometryType := sb.geometryType
      worldTransform := sb.worldTransform
      numWorldTransforms := sb.numWorldTransforms } }

/-! ## Commit changes to the draw queue -/

/-- First paragraph of `UpdateDirtyConstants`: bind the pipeline state when
dirty and clear the flag. -/
def commitPipelineState (s : CompositorState) : CompositorState :=
  if s.dirty.pipelineState then
    { s with
      queue := s.queue.push (DrawCommand.setPipelineState (s.current.pipelineState.getD 0))
      dirty := { s.dirty with pipelineState := false } }
  else s

/-- `UpdateDirtyConstants`, `SP_FRAME` paragraph: commit the frame constants
when the group must be rewritten and clear the flag. -/
def commitFrameGroup (s : CompositorState) : CompositorState :=
  if s.queue.beginShaderParameterGroup .SP_FRAME s.dirty.frameConstants then
    { s with
      queue := s.queue.commitShaderParameterGroup .SP_FRAME
      dirty := { s.dirty with frameConstants := false } }
  else s

/-- `UpdateDirtyConstants`, `SP_CAMERA` paragraph. -/
def commitCameraGroup (s : CompositorState) : CompositorState :=
  if s.queue.beginShaderParameterGroup .SP_CAMERA s.dirty.cameraConstants then
    { s with
      queue := s.queue.commitShaderParameterGroup .SP_CAMERA
      dirty := { s.dirty with cameraConstants := false } }
  else s

/-- `UpdateDirtyConstants`, `SP_LIGHT` paragraph: during shadow-map rendering
the light constants are committed once (never marked dirty); otherwise, with
any lighting enabled, they are committed when pixel- or vertex-light constants
are dirty.  Neither flag is reset here. -/
def commitLightGroup (cfg : CompositorConfig) (s : CompositorState) : CompositorState :=
  if cfg.outputShadowSplit.isSome then
    if s.queue.beginShaderParameterGroup .SP_LIGHT false then
      { s with queue := s.queue.commitShaderParameterGroup .SP_LIGHT }
    else s
  else if cfg.enabled.anyLighting then
    if s.queue.beginShaderParameterGroup .SP_LIGHT
        (s.dirty.pixelLightConstants || s.dirty.vertexLightConstants) then
      { s with queue := s.queue.commitShaderParameterGroup .SP_LIGHT }
    else s
  else s

/-- `UpdateDirtyConstants`, `SP_MATERIAL` paragraph: committed when the
material or the lightmap constants are dirty; neither flag is reset here. -/
def commitMaterialGroup (s : CompositorState) : CompositorState :=
  if s.queue.beginShaderParameterGroup .SP_MATERIAL
      (s.dirty.material || s.dirty.lightmapConstants) then
    { s with queue := s.queue.commitShaderParameterGroup .SP_MATERIAL }
  else s

/-- `DrawCommandCompositor::UpdateDirtyConstants`: bind the pipeline state when
dirty, then commit the frame / camera / light / material constant groups, each
gated by its own dirty flag through `BeginShaderParameterGroup`.  Only the
pipeline-state, frame and camera flags are reset here; the light and material
flags are recomputed from scratch by the next batch's checks. -/
def updateDirtyConstants (cfg : CompositorConfig) (s : CompositorState) : CompositorState :=
  commitMaterialGroup (commitLightGroup cfg (commitCameraGroup (commitFrameGroup
    (commitPipelineState s))))

/-- `DrawCommandCompositor::UpdateDirtyResources`: when material, lightmap
texture or light textures are dirty, re-bind the global pass resources, the
material textures (skipping the material's own `TU_EMISSIVE` texture when a
lightmap texture is active), the lightmap texture at `TU_EMISSIVE`, and the
pixel light's ramp/shape/shadow textures, then commit. -/
def updateDirtyResources (cfg : CompositorConfig) (env : RenderEnv)
    (s : CompositorState) : CompositorState :=
  let resourcesDirty := s.dirty.material || s.dirty.lightmapTextures || s.dirty.pixelLightTextures
  if resourcesDirty then
    let q0 := cfg.globalResources.foldl
      (fun q d => q.push (DrawCommand.addShaderResource d.1 d.2)) s.queue
    let q1 := (env.materialTextures (s.current.material.getD 0)).foldl
      (fun q t =>
        if !s.current.lightmapTexture.isSome || t.1 ≠ TU_EMISSIVE then
          q.push (DrawCommand.addShaderResource t.1 t.2)
        else q) q0
    let q2 := match s.current.lightmapTexture with
      | some t => q1.push (DrawCommand.addShaderResource TU_EMISSIVE t)
      | none => q1
    let q3 := match s.current.pixelLightRamp with
      | some t => q2.push (DrawCommand.addShaderResource TU_LIGHTRAMP t)
      | none => q2
    let q4 := match s.current.pixelLightShape with
      | some t => q3.push (DrawCommand.addShaderResource TU_LIGHTSHAPE t)
      | none => q3
    let q5 := match s.current.pixelLightShadowMap with
      | some t => q4.push (DrawCommand.addShaderResource TU_SHADOWMAP t)
      | none => q4
    { s with queue := q5.push DrawCommand.commitShaderResources }
  else s

/-! ## Draw operations -/

/-- `DrawCommandCompositor::DrawObject`: bind buffers when the geometry is
dirty, then issue one indexed or non-indexed draw depending on the presence of
an index buffer. -/
def drawObject (env : RenderEnv) (s : CompositorState) : CompositorState :=
  let geometry := env.geom (s.current.geometry.getD 0)
  let indexBuffer := geometry.indexBuffer
  let s1 :=
    if s.dirty.geometry then
      { s with
        queue := s.queue.push (DrawCommand.setBuffers geometry.vertexBuffers indexBuffer none)
        dirty := { s.dirty with geometry := false } }
    else s
  if indexBuffer.isSome then
    { s1 with queue := s1.queue.push (DrawCommand.drawIndexed geometry.indexStart geometry.indexCount) }
  else
    { s1 with queue := s1.queue.push (DrawCommand.draw geometry.vertexStart geometry.vertexCount) }

/-- `DrawCommandCompositor::DrawObjectInstanced`: bind the group's geometry
buffers plus the instancing buffer, issue one indexed-instanced draw covering
the instance range `[start_, start_ + count_)`, and reset the count to zero
(clearing the ghost run members). -/
def drawObjectInstanced (env : RenderEnv) (s : CompositorState) : CompositorState :=
  let geometry := env.geom (s.instancingGroup.geometry.getD 0)
  let q1 := s.queue.push
    (DrawCommand.setBuffers geometry.vertexBuffers geometry.indexBuffer
      (some env.instancingVertexBuffer))
  let q2 := q1.push
    (DrawCommand.drawIndexedInstanced geometry.indexStart geometry.indexCount
      s.instancingGroup.start s.instancingGroup.count)
  { s with
    queue := q2
    instancingGroup := { s.instancingGroup with count := 0 }
    openRunBatches := [] }

/-! ## Orchestration -/

/-- The "update dirty flags and cached state" prefix of
`DrawCommandCompositor::ProcessBatch`: extract object constants, then run the
dirty checks gated by the enabled features. -/
def processBatchChecks (cfg : CompositorConfig) (env : RenderEnv)
    (s : CompositorState) (b : PipelineBatch) (sb : SourceBatch) : CompositorState :=
  let t0 := extractObjectConstants cfg env s sb b.drawableIndex
  let t1 := checkDirtyCommonState env t0 b
  let t2 := if cfg.enabled.pixelLighting then checkDirtyPixelLight env t1 b else t1
  let t3 :=
    if cfg.enabled.vertexLighting then
      checkDirtyVertexLight cfg.settings env t2 (env.vertexLightsOf b.drawableIndex)
    else t2
  if cfg.enabled.ambientLighting then checkDirtyLightmap env t3 sb else t3

/-- The `beginInstancingGroup` condition of `ProcessBatch`: instancing enabled
for the pass, static geometry type, and a non-null index buffer. -/
def instancingEligible (cfg : CompositorConfig) (env : RenderEnv) (b : PipelineBatch) : Bool :=
  cfg.enabled.staticInstancing
    && decide (b.geometryType = GeometryType.GEOM_STATIC)
    && (env.geom b.geometry).indexBuffer.isSome

/-- `DrawCommandCompositor::ProcessBatch`: evaluate dirtiness, then either
continue the open instancing run, or flush it, recommit dirty constants and
resources, and begin a new run or issue one direct draw. -/
def processBatch (cfg : CompositorConfig) (env : RenderEnv)
    (s : CompositorState) (b : PipelineBatch) (sb : SourceBatch) : CompositorState :=
  let s0 := processBatchChecks cfg env s b sb
  let resetInstancingGroup := s0.instancingGroup.count == 0 || s0.dirty.IsAnyStateDirty
  if resetInstancingGroup then
    let s1 := if s0.instancingGroup.count > 0 then drawObjectInstanced env s0 else s0
    let s2 := updateDirtyConstants cfg s1
    let s3 := updateDirtyResources cfg env s2
    if instancingEligible cfg env b then
      -- instancingGroup_.count_ = 1; start_ = AddInstance(); geometry_ = current_.geometry_
      { s3 with
        instancingGroup :=
          { geometry := s3.current.geometry, start := s3.instancingBufferNext, count := 1 }
        instancingBufferNext := s3.instancingBufferNext + 1
        openRunBatches := [b] }
    else
      -- BeginShaderParameterGroup(SP_OBJECT, true); AddObjectConstants; Commit; DrawObject
      let s4 := { s3 with queue := s3.queue.commitShaderParameterGroup .SP_OBJECT }
      drawObject env s4
  else
    -- ++instancingGroup_.count_; AddInstance(); AddObjectInstanceData()
    { s0 with
      instancingGroup := { s0.instancingGroup with count := s0.instancingGroup.count + 1 }
      instancingBufferNext := s0.instancingBufferNext + 1
      openRunBatches := s0.openRunBatches ++ [b] }

/-- `DrawCommandCompositor::ProcessSceneBatch`. -/
def processSceneBatch (cfg : CompositorConfig) (env : RenderEnv)
    (s : CompositorState) (b : PipelineBatch) : CompositorState :=
  processBatch cfg env s b (env.sourceBatchOf b.drawableIndex b.sourceBatchIndex)

/-- The source batch built by `ProcessLightVolumeBatch`: a default
`SourceBatch` whose world transform points at the light's volume transform. -/
def lightVolumeSourceBatch (env : RenderEnv) (b : PipelineBatch) : SourceBatch :=
  { worldTransform := env.lightVolumeTransform b.lightIndex }

/-- `DrawCommandCompositor::ProcessLightVolumeBatch`. -/
def processLightVolumeBatch (cfg : CompositorConfig) (env : RenderEnv)
    (s : CompositorState) (b : PipelineBatch) : CompositorState :=
  processBatch cfg env s b (lightVolumeSourceBatch env b)

/-- `DrawCommandCompositor::FlushDrawCommands`: flush the open instancing run,
if any. -/
def flushDrawCommands (env : RenderEnv) (s : CompositorState) : CompositorState :=
  if s.instancingGroup.count > 0 then drawObjectInstanced env s else s

/-- `BatchRenderer::RenderBatches` (both overloads differ only in the sort-key
wrapper of the batch list): construct one compositor, stream the batches
through it, and perform the mandatory final flush. -/
def renderBatches (cfg : CompositorConfig) (env : RenderEnv)
    (batches : List PipelineBatch) : CompositorState :=
  flushDrawCommands env (batches.foldl (fun s b => processSceneBatch cfg env s b) initState)

/-- The flag set `BatchRenderFlag::PixelLight` that
`BatchRenderer::RenderLightVolumeBatches` constructs its compositor with. -/
def lightVolumeFlags : BatchRenderFlags := { pixelLight := true }

/-- `BatchRenderer::RenderLightVolumeBatches`: one compositor constructed with
exactly the `PixelLight` flag, the light-volume batches streamed through it,
then the mandatory final flush. -/
def renderLightVolumeBatches (settings : BatchRendererSettings) (env : RenderEnv)
    (globalResources : List (Nat × Nat)) (batches : List PipelineBatch) : CompositorState :=
  let cfg : CompositorConfig :=
    { settings := settings
      enabled := mkEnabledFeatureFlags lightVolumeFlags
      outputShadowSplit := none
      globalResources := globalResources }
  flushDrawCommands env (batches.foldl (fun s b => processLightVolumeBatch cfg env s b) initState)

/-! ## Observations on the emitted command stream -/

/-- Is this command a draw operation (direct or instanced)? -/
def isDrawCommand : DrawCommand → Bool
  | .draw _ _ => true
  | .drawIndexed _ _ => true
  | .drawIndexedInstanced _ _ _ _ => true
  | _ => false

/-- Is this command a direct (non-instanced) draw? -/
def isDirectDraw : DrawCommand → Bool
  | .draw _ _ => true
  | .drawIndexed _ _ => true
  | _ => false

/-- Is this command an instanced draw? -/
def isInstancedDraw : DrawCommand → Bool
  | .drawIndexedInstanced _ _ _ _ => true
  | _ => false

/-- Number of draw operations in a command list. -/
def countDraws (l : List DrawCommand) : Nat := l.countP isDrawCommand

/-- Number of direct draws in a command list. -/
def countDirectDraws (l : List DrawCommand) : Nat := l.countP isDirectDraw

/-- Number of instanced draws in a command list. -/
def countInstancedDraws (l : List DrawCommand) : Nat := l.countP isInstancedDraw

/-- Number of `SP_OBJECT` constant-group commits in a command list. -/
def countObjectCommits (l : List DrawCommand) : Nat :=
  l.countP (fun c => c == DrawCommand.commitShaderParameterGroup .SP_OBJECT)

/-- Helper for stating resource re-binding: the bind command emitted for an
optional texture. -/
def optionalBind (unit : Nat) : Option Nat → List DrawCommand
  | some t => [DrawCommand.addShaderResource unit t]
  | none => []

/-! ## Specification-side partition of a batch sequence (claim C1)

The claim partitions the input into contiguous runs by
(no dirty state ∧ same geometry ∧ instancing-eligible), counting one draw per
run plus one draw per ineligible batch.  The dirty bit of a batch is the
compositor's own `IsAnyStateDirty` after its dirty checks, evaluated in
lockstep with the machine. -/

/-- Partition state: draws counted so far, whether an eligible run is open,
and the geometry of the open run. -/
structure SpecRunState where
  count : Nat := 0
  openRun : Bool := false
  runGeometry : Option Nat := none
deriving DecidableEq, Repr

/-- One partition step: an ineligible batch always counts one draw of its own;
an eligible batch joins the open run when nothing is dirty and its geometry
matches, and otherwise opens a new run (counting one draw for it). -/
def specStep (cfg : CompositorConfig) (env : RenderEnv) (dirty : Bool)
    (b : PipelineBatch) (st : SpecRunState) : SpecRunState :=
  if instancingEligible cfg env b then
    if st.openRun && !dirty && decide (st.runGeometry = some b.geometry) then st
    else { count := st.count + 1, openRun := true, runGeometry := some b.geometry }
  else { count := st.count + 1, openRun := false, runGeometry := none }

/-- The partition fold, advancing the compositor in lockstep to obtain each
batch's dirty evaluation. -/
def specRunAux (cfg : CompositorConfig) (env : RenderEnv) :
    List PipelineBatch → CompositorState → SpecRunState → SpecRunState
  | [], _, st => st
  | b :: rest, m, st =>
    let m1 := processBatchChecks cfg env m b (env.sourceBatchOf b.drawableIndex b.sourceBatchIndex)
    specRunAux cfg env rest (processSceneBatch cfg env m b)
      (specStep cfg env m1.dirty.IsAnyStateDirty b st)

/-- The number of draws claim C1 predicts for a batch sequence: contiguous
(no dirty ∧ same geometry ∧ eligible) runs plus one per ineligible batch. -/
def specRunCount (cfg : CompositorConfig) (env : RenderEnv)
    (batches : List PipelineBatch) : Nat :=
  (specRunAux cfg env batches initState {}).count

/-- Claim C1's quantification domain after amendment: all batches that share a
geometry pointer agree on the geometry type (the compositor's run continuation
checks only the dirty flags, so a batch of a different geometry type but equal
geometry pointer and clean state would be absorbed into an open run). -/
def GeometryTypeConsistent (batches : List PipelineBatch) : Prop :=
  ∀ a ∈ batches, ∀ c ∈ batches, a.geometry = c.geometry → a.geometryType = c.geometryType

/-- The instancing-run invariant of claim C3, on the ghost run members: the
count matches the accumulated members, an open group's geometry is the cached
current geometry, and every accumulated member has the group's geometry. -/
def InstancingRunInvariant (s : CompositorState) : Prop :=
  s.instancingGroup.count = s.openRunBatches.length ∧
  (0 < s.instancingGroup.count → s.instancingGroup.geometry = s.current.geometry) ∧
  ∀ b ∈ s.openRunBatches, some b.geometry = s.instancingGroup.geometry

/-- The lockstep relation used to prove claim C1: emitted draws plus the open
run equal the partition count; the machine has an open run exactly when the
partition does; and an open run's geometry is the cached geometry and was
opened by an eligible static batch of the input. -/
def RunCountRel (cfg : CompositorConfig) (env : RenderEnv) (batches : List PipelineBatch)
    (m : CompositorState) (st : SpecRunState) : Prop :=
  countDraws m.queue.commands + (if 0 < m.instancingGroup.count then 1 else 0) = st.count ∧
  (0 < m.instancingGroup.count ↔ st.openRun = true) ∧
  (0 < m.instancingGroup.count →
    st.runGeometry = m.instancingGroup.geometry ∧
    m.instancingGroup.geometry = m.current.geometry ∧
    ∃ h0, h0 ∈ batches ∧ some h0.geometry = m.instancingGroup.geometry ∧
      h0.geometryType = GeometryType.GEOM_STATIC ∧
      cfg.enabled.staticInstancing = true ∧
      (env.geom h0.geometry).indexBuffer.isSome = true)

/-! ## Concrete sample world for witnesses and counterexamples -/

/-- A small concrete environment: geometry 1 and 2 have index buffers, light 0
has a ramp texture, material 3 has a diffuse and an emissive texture. -/
def sampleEnv : RenderEnv :=
  { constantDepthBias := fun _ => 0
    geom := fun g =>
      if g = 1 then { indexBuffer := some 11, indexStart := 5, indexCount := 30 }
      else if g = 2 then { indexBuffer := some 12, indexStart := 0, indexCount := 9 }
      else {}
    materialTextures := fun m => if m = 3 then [(0, 21), (TU_EMISSIVE, 22)] else []
    lightParams := fun _ => { lightRamp := some 41 }
    lightmapTexture := fun _ => some 51
    vertexLightsOf := fun _ => List.replicate MAX_VERTEX_LIGHTS M_MAX_UNSIGNED
    sphericalHarmonicsOf := fun _ => 0
    shAverage := fun _ => (0, 0, 0)
    linearToGammaColor := fun _ => (0, 0, 0, 0)
    sourceBatchOf := fun _ _ => {}
    lightVolumeTransform := fun _ => 0
    instancingVertexBuffer := 99 }

/-- A compositor configuration with static instancing enabled and all lighting
features disabled. -/
def instancingCfg : CompositorConfig :=
  { enabled := mkEnabledFeatureFlags { instantiateStaticGeometry := true } }

/-- A compositor configuration with pixel lighting enabled. -/
def pixelLightCfg : CompositorConfig :=
  { enabled := mkEnabledFeatureFlags { pixelLight := true } }

/-- A static batch drawing geometry 1 with material 3 and pipeline state 7. -/
def staticBatch : PipelineBatch := { pipelineState := 7, material := 3, geometry := 1 }

/-- A skinned batch sharing geometry 1, material 3 and pipeline state 7 with
`staticBatch`. -/
def skinnedBatchSameGeometry : PipelineBatch :=
  { pipelineState := 7, material := 3, geometry := 1, geometryType := .GEOM_SKINNED }

/-- A batch lit by pixel light 0. -/
def litBatch : PipelineBatch :=
  { pipelineState := 7, material := 3, geometry := 1, lightIndex := 0 }

/-- A skinned batch on a different geometry (geometry 2). -/
def skinnedBatchOtherGeometry : PipelineBatch :=
  { pipelineState := 7, material := 3, geometry := 2, geometryType := .GEOM_SKINNED }

/-- Dirty flags of features disabled for the pass are clear.  The gated checks
never touch these flags, so the property is an invariant of every compositor
run started from a fresh state. -/
def DisabledClean (cfg : CompositorConfig) (s : CompositorState) : Prop :=
  (cfg.enabled.pixelLighting = false →
    s.dirty.pixelLightConstants = false ∧ s.dirty.pixelLightTextures = false) ∧
  (cfg.enabled.vertexLighting = false → s.dirty.vertexLightConstants = false) ∧
  (cfg.enabled.ambientLighting = false →
    s.dirty.lightmapConstants = false ∧ s.dirty.lightmapTextures = false)

/-! # Theorems -/

/-- C4: for every camera, `GetFogParameter` derives both the fog start and the
fog end from `min(GetEffectiveFogStart(), farClip)`; when the start would reach
`fogEnd * (1 - M_LARGE_EPSILON)` it is clamped to that value; the resulting
`fogRange = max(fogEnd - fogStart, M_EPSILON)` is strictly positive, so the
division `farClip / fogRange` never divides by zero; and the returned constant
is `{fogEnd / farClip, farClip / fogRange, 0, 0}`. -/
theorem getFogParameter_safe (e f : Val) :
    fogEndOf e f = min e f ∧
    (min e f ≥ fogEndOf e f * (1 - M_LARGE_EPSILON) →
      fogStartOf e f = fogEndOf e f * (1 - M_LARGE_EPSILON)) ∧
    0 < fogRangeOf e f ∧
    getFogParameter e f =
      (fogEndOf e f / f, f / fogRangeOf e f, 0, 0) := by
  refine ⟨rfl, ?_, ?_, rfl⟩
  · intro h
    simp only [fogStartOf]
    rw [if_pos h]
  · have hpos : (0 : Val) < M_EPSILON := by norm_num [M_EPSILON]
    exact lt_of_lt_of_le hpos (le_max_right _ _)

/-- Witness for C4 at the spec's concrete instance (farClip = 100, effective
fog start = 80, so fogStart = fogEnd = 80 before the clamp): the fog range is
strictly positive. -/
theorem getFogParameter_safe_witness :
    fogStartOf 80 100 = fogEndOf 80 100 * (1 - M_LARGE_EPSILON) ∧ 0 < fogRangeOf 80 100 := by
  have h := getFogParameter_safe 80 100
  refine ⟨h.2.1 ?_, h.2.2.1⟩
  norm_num [fogEndOf, M_LARGE_EPSILON]

/-- C5 counterexample: on the non-OpenGL backend an orthographic camera yields
the depth-mode constant `{1, 0, 1, 0}` (z = 1, w = 0), not the z/w split 0/1
claimed for the non-OpenGL backend. -/
theorem depthMode_claim_counterexample :
    getCameraDepthModeParameter false true 100 = (1, 0, 1, 0) ∧
    ¬ ((getCameraDepthModeParameter false true 100).2.2.1 = 0 ∧
       (getCameraDepthModeParameter false true 100).2.2.2 = 1) := by
  constructor
  · rfl
  · intro h
    have := h.1
    norm_num [getCameraDepthModeParameter] at this

/-- C5 (amended): the depth-mode constant of an orthographic camera has x = 1
and y = 0, with z/w = 0.5/0.5 on the OpenGL backend and z/w = 1/0 otherwise;
for a perspective camera it equals {0, 0, 0, 1/farClip}. -/
theorem depthMode_parameter (opengl isOrthographic : Bool) (farClip : Val) :
    (isOrthographic = true →
      (getCameraDepthModeParameter opengl isOrthographic farClip).1 = 1 ∧
      (getCameraDepthModeParameter opengl isOrthographic farClip).2.1 = 0 ∧
      (opengl = true →
        (getCameraDepthModeParameter opengl isOrthographic farClip).2.2.1 = 1 / 2 ∧
        (getCameraDepthModeParameter opengl isOrthographic farClip).2.2.2 = 1 / 2) ∧
      (opengl = false →
        (getCameraDepthModeParameter opengl isOrthographic farClip).2.2.1 = 1 ∧
        (getCameraDepthModeParameter opengl isOrthographic farClip).2.2.2 = 0)) ∧
    (isOrthographic = false →
      getCameraDepthModeParameter opengl isOrthographic farClip
        = (0, 0, 0, 1 / farClip)) := by
  cases isOrthographic <;> cases opengl
  all_goals simp [getCameraDepthModeParameter]
  all_goals norm_num

/-- Witness for C5 at a concrete camera: orthographic, non-OpenGL backend,
far clip 100. -/
theorem depthMode_parameter_witness :
    (getCameraDepthModeParameter false true 100).1 = 1 ∧
    (getCameraDepthModeParameter false true 100).2.2.1 = 1 ∧
    (getCameraDepthModeParameter false true 100).2.2.2 = 0 := by
  have h := (depthMode_parameter false true 100).1 rfl
  exact ⟨h.1, (h.2.2.2 rfl).1, (h.2.2.2 rfl).2⟩

/-- C7: vertex-light dirtiness is decided by order-sensitive equality of the
vertex-light index container; on a change all `MAX_VERTEX_LIGHTS` slots are
recomputed (and left untouched otherwise), and the slot data for the
`M_MAX_UNSIGNED` sentinel is the default null-light bundle: zero color, zero
direction, zero position and the default (zero) attenuation values. -/
theorem checkDirtyVertexLight_spec (settings : BatchRendererSettings) (env : RenderEnv)
    (s : CompositorState) (vl : List Nat) :
    ((checkDirtyVertexLight settings env s vl).dirty.vertexLightConstants
        = decide (s.current.vertexLights ≠ vl)) ∧
    ((checkDirtyVertexLight settings env s vl).current.vertexLights = vl) ∧
    (s.current.vertexLights ≠ vl →
      (checkDirtyVertexLight settings env s vl).current.vertexLightsData
        = (List.range MAX_VERTEX_LIGHTS).flatMap
            (fun i => vertexLightSlotData settings env (vl.getD i M_MAX_UNSIGNED))) ∧
    (s.current.vertexLights = vl →
      (checkDirtyVertexLight settings env s vl).current.vertexLightsData
        = s.current.vertexLightsData) ∧
    vertexLightSlotData settings env M_MAX_UNSIGNED
        = [(0, 0, 0, 0), (0, 0, 0, 0), (0, 0, 0, 0)] := by
  have hnull : vertexLightSlotData settings env M_MAX_UNSIGNED
      = [(0, 0, 0, 0), (0, 0, 0, 0), (0, 0, 0, 0)] := by
    simp only [vertexLightSlotData, nullVertexLight, LightShaderParameters.GetColor]
    cases settings.gammaCorrection <;> rfl
  by_cases h : s.current.vertexLights = vl
  · simp [checkDirtyVertexLight, h, hnull]
  · simp [checkDirtyVertexLight, h, hnull]

/-- Witness for C7: a container change with sentinel slots produces the
null-light bundle in the sentinel slots. -/
theorem checkDirtyVertexLight_spec_witness :
    (checkDirtyVertexLight {} sampleEnv initState [0, M_MAX_UNSIGNED, M_MAX_UNSIGNED, M_MAX_UNSIGNED]).current.vertexLightsData
      = (List.range MAX_VERTEX_LIGHTS).flatMap
          (fun i => vertexLightSlotData {} sampleEnv
            ([0, M_MAX_UNSIGNED, M_MAX_UNSIGNED, M_MAX_UNSIGNED].getD i M_MAX_UNSIGNED)) :=
  (checkDirtyVertexLight_spec {} sampleEnv initState
    [0, M_MAX_UNSIGNED, M_MAX_UNSIGNED, M_MAX_UNSIGNED]).2.2.1 (by decide)

/-! ## Queue fold helpers -/

theorem foldl_push_commands {α : Type} (f : α → DrawCommand) (l : List α) (q : DrawQueueState) :
    (l.foldl (fun q a => q.push (f a)) q).commands = q.commands ++ l.map f := by
  induction l generalizing q with
  | nil => simp
  | cons a t ih =>
    rw [List.foldl_cons, ih]
    simp [DrawQueueState.push]

theorem foldl_pushlit_commands {α : Type} (f : α → DrawCommand) (l : List α) (q : DrawQueueState) :
    (l.foldl (fun q a =>
        ({ commands := q.commands ++ [f a], committed := q.committed } : DrawQueueState)) q).commands
      = q.commands ++ l.map f :=
  foldl_push_commands f l q

theorem foldl_skiplit_commands {α : Type} (p : α → Prop) [DecidablePred p]
    (f : α → DrawCommand) (l : List α) (q : DrawQueueState) :
    (l.foldl (fun q a => if p a then q
        else ({ commands := q.commands ++ [f a], committed := q.committed } : DrawQueueState)) q).commands
      = q.commands ++ (l.filter (fun a => !decide (p a))).map f := by
  induction l generalizing q with
  | nil => simp
  | cons a t ih =>
    rw [List.foldl_cons]
    by_cases hpa : p a
    · rw [if_pos hpa, ih]
      simp [hpa]
    · rw [if_neg hpa, ih]
      simp [hpa]

/-- Characterization of the command stream `UpdateDirtyResources` appends when
resources are dirty. -/
theorem updateDirtyResources_commands (cfg : CompositorConfig) (env : RenderEnv)
    (s : CompositorState)
    (h : (s.dirty.material || s.dirty.lightmapTextures || s.dirty.pixelLightTextures) = true) :
    (updateDirtyResources cfg env s).queue.commands
      = s.queue.commands
        ++ cfg.globalResources.map (fun d => DrawCommand.addShaderResource d.1 d.2)
        ++ ((env.materialTextures (s.current.material.getD 0)).filter
              (fun t => !s.current.lightmapTexture.isSome || decide (t.1 ≠ TU_EMISSIVE))).map
            (fun t => DrawCommand.addShaderResource t.1 t.2)
        ++ optionalBind TU_EMISSIVE s.current.lightmapTexture
        ++ optionalBind TU_LIGHTRAMP s.current.pixelLightRamp
        ++ optionalBind TU_LIGHTSHAPE s.current.pixelLightShape
        ++ optionalBind TU_SHADOWMAP s.current.pixelLightShadowMap
        ++ [DrawCommand.commitShaderResources] ∧
    (s.current.lightmapTexture = none →
      (env.materialTextures (s.current.material.getD 0)).filter
          (fun t => !s.current.lightmapTexture.isSome || decide (t.1 ≠ TU_EMISSIVE))
        = env.materialTextures (s.current.material.getD 0)) := by
  constructor
  · simp only [updateDirtyResources, h, if_true]
    cases hlm : s.current.lightmapTexture <;>
      cases hr : s.current.pixelLightRamp <;>
        cases hs : s.current.pixelLightShape <;>
          cases hm : s.current.pixelLightShadowMap <;>
            simp [DrawQueueState.push, foldl_pushlit_commands, foldl_skiplit_commands,
              optionalBind, hlm, hr, hs, hm]
  · intro hnone
    simp [hnone]

/-- `UpdateDirtyResources` is the identity when neither material nor lightmap
nor light textures are dirty. -/
theorem updateDirtyResources_clean (cfg : CompositorConfig) (env : RenderEnv)
    (s : CompositorState)
    (h : (s.dirty.material || s.dirty.lightmapTextures || s.dirty.pixelLightTextures) = false) :
    updateDirtyResources cfg env s = s := by
  unfold updateDirtyResources
  simp [h]

/-- C10: when resources are re-bound (material, lightmap texture or light
textures dirty) the emitted binds are: the global pass resources, the material
textures with the material's own `TU_EMISSIVE` texture skipped exactly when a
lightmap texture is active, the lightmap texture at `TU_EMISSIVE` when active,
the pixel-light textures, then the commit; with no active lightmap texture the
material textures (including `TU_EMISSIVE`) are bound unchanged. -/
theorem updateDirtyResources_spec (cfg : CompositorConfig) (env : RenderEnv) (s : CompositorState)
    (h : (s.dirty.material || s.dirty.lightmapTextures || s.dirty.pixelLightTextures) = true) :
    (updateDirtyResources cfg env s).queue.commands
      = s.queue.commands
        ++ cfg.globalResources.map (fun d => DrawCommand.addShaderResource d.1 d.2)
        ++ ((env.materialTextures (s.current.material.getD 0)).filter
              (fun t => !s.current.lightmapTexture.isSome || decide (t.1 ≠ TU_EMISSIVE))).map
            (fun t => DrawCommand.addShaderResource t.1 t.2)
        ++ optionalBind TU_EMISSIVE s.current.lightmapTexture
        ++ optionalBind TU_LIGHTRAMP s.current.pixelLightRamp
        ++ optionalBind TU_LIGHTSHAPE s.current.pixelLightShape
        ++ optionalBind TU_SHADOWMAP s.current.pixelLightShadowMap
        ++ [DrawCommand.commitShaderResources] ∧
    (s.current.lightmapTexture = none →
      (env.materialTextures (s.current.material.getD 0)).filter
          (fun t => !s.current.lightmapTexture.isSome || decide (t.1 ≠ TU_EMISSIVE))
        = env.materialTextures (s.current.material.getD 0)) :=
  updateDirtyResources_commands cfg env s h

/-- Witness for C10: dirty material, active lightmap texture 51, material 3
with an emissive texture. -/
theorem updateDirtyResources_spec_witness :
    (updateDirtyResources instancingCfg sampleEnv
        { dirty := { material := true, frameConstants := false, cameraConstants := false }
          current := { material := some 3, lightmapTexture := some 51 } }).queue.commands
      = [DrawCommand.addShaderResource 0 21,
         DrawCommand.addShaderResource TU_EMISSIVE 51,
         DrawCommand.commitShaderResources] := by
  have h := (updateDirtyResources_spec instancingCfg sampleEnv
    { dirty := { material := true, frameConstants := false, cameraConstants := false }
      current := { material := some 3, lightmapTexture := some 51 } } (by decide)).1
  rw [h]
  decide

/-! ## Effect lemmas for the single compositor operations -/

@[simp]
theorem extractObjectConstants_dirty (cfg : CompositorConfig) (env : RenderEnv)
    (s : CompositorState) (sb : SourceBatch) (di : Nat) :
    (extractObjectConstants cfg env s sb di).dirty = s.dirty := rfl

@[simp]
theorem extractObjectConstants_current (cfg : CompositorConfig) (env : RenderEnv)
    (s : CompositorState) (sb : SourceBatch) (di : Nat) :
    (extractObjectConstants cfg env s sb di).current = s.current := rfl

@[simp]
theorem extractObjectConstants_queue (cfg : CompositorConfig) (env : RenderEnv)
    (s : CompositorState) (sb : SourceBatch) (di : Nat) :
    (extractObjectConstants cfg env s sb di).queue = s.queue := rfl

@[simp]
theorem extractObjectConstants_group (cfg : CompositorConfig) (env : RenderEnv)
    (s : CompositorState) (sb : SourceBatch) (di : Nat) :
    (extractObjectConstants cfg env s sb di).instancingGroup = s.instancingGroup := rfl

@[simp]
theorem extractObjectConstants_buffer (cfg : CompositorConfig) (env : RenderEnv)
    (s : CompositorState) (sb : SourceBatch) (di : Nat) :
    (extractObjectConstants cfg env s sb di).instancingBufferNext = s.instancingBufferNext := rfl

@[simp]
theorem extractObjectConstants_ghost (cfg : CompositorConfig) (env : RenderEnv)
    (s : CompositorState) (sb : SourceBatch) (di : Nat) :
    (extractObjectConstants cfg env s sb di).openRunBatches = s.openRunBatches := rfl

/-- Closed form of `CheckDirtyCommonState`. -/
@[simp]
theorem checkDirtyCommonState_eq (env : RenderEnv) (s : CompositorState) (b : PipelineBatch) :
    checkDirtyCommonState env s b =
      { s with
        dirty := { s.dirty with
          pipelineState := decide (s.current.pipelineState ≠ some b.pipelineState)
          cameraConstants := s.dirty.cameraConstants
            || decide (s.current.constantDepthBias ≠ env.constantDepthBias b.pipelineState)
          material := decide (s.current.material ≠ some b.material)
          geometry := decide (s.current.geometry ≠ some b.geometry) }
        current := { s.current with
          pipelineState := some b.pipelineState
          constantDepthBias := env.constantDepthBias b.pipelineState
          material := some b.material
          geometry := some b.geometry } } := by
  unfold checkDirtyCommonState
  by_cases h : s.current.constantDepthBias = env.constantDepthBias b.pipelineState
  · simp [h]
  · simp [h]

@[simp]
theorem checkDirtyPixelLight_queue (env : RenderEnv) (s : CompositorState) (b : PipelineBatch) :
    (checkDirtyPixelLight env s b).queue = s.queue := by
  unfold checkDirtyPixelLight
  dsimp only
  split_ifs <;> rfl

@[simp]
theorem checkDirtyPixelLight_group (env : RenderEnv) (s : CompositorState) (b : PipelineBatch) :
    (checkDirtyPixelLight env s b).instancingGroup = s.instancingGroup := by
  unfold checkDirtyPixelLight
  dsimp only
  split_ifs <;> rfl

@[simp]
theorem checkDirtyPixelLight_buffer (env : RenderEnv) (s : CompositorState) (b : PipelineBatch) :
    (checkDirtyPixelLight env s b).instancingBufferNext = s.instancingBufferNext := by
  unfold checkDirtyPixelLight
  dsimp only
  split_ifs <;> rfl

@[simp]
theorem checkDirtyPixelLight_ghost (env : RenderEnv) (s : CompositorState) (b : PipelineBatch) :
    (checkDirtyPixelLight env s b).openRunBatches = s.openRunBatches := by
  unfold checkDirtyPixelLight
  dsimp only
  split_ifs <;> rfl

@[simp]
theorem checkDirtyPixelLight_object (env : RenderEnv) (s : CompositorState) (b : PipelineBatch) :
    (checkDirtyPixelLight env s b).object = s.object := by
  unfold checkDirtyPixelLight
  dsimp only
  split_ifs <;> rfl

@[simp]
theorem checkDirtyPixelLight_dirty_pipelineState (env : RenderEnv) (s : CompositorState)
    (b : PipelineBatch) :
    (checkDirtyPixelLight env s b).dirty.pipelineState = s.dirty.pipelineState := by
  unfold checkDirtyPixelLight
  dsimp only
  split_ifs <;> rfl

@[simp]
theorem checkDirtyPixelLight_dirty_frame (env : RenderEnv) (s : CompositorState)
    (b : PipelineBatch) :
    (checkDirtyPixelLight env s b).dirty.frameConstants = s.dirty.frameConstants := by
  unfold checkDirtyPixelLight
  dsimp only
  split_ifs <;> rfl

@[simp]
theorem checkDirtyPixelLight_dirty_camera (env : RenderEnv) (s : CompositorState)
    (b : PipelineBatch) :
    (checkDirtyPixelLight env s b).dirty.cameraConstants = s.dirty.cameraConstants := by
  unfold checkDirtyPixelLight
  dsimp only
  split_ifs <;> rfl

@[simp]
theorem checkDirtyPixelLight_dirty_vertex (env : RenderEnv) (s : CompositorState)
    (b : PipelineBatch) :
    (checkDirtyPixelLight env s b).dirty.vertexLightConstants = s.dirty.vertexLightConstants := by
  unfold checkDirtyPixelLight
  dsimp only
  split_ifs <;> rfl

@[simp]
theorem checkDirtyPixelLight_dirty_lightmapConstants (env : RenderEnv) (s : CompositorState)
    (b : PipelineBatch) :
    (checkDirtyPixelLight env s b).dirty.lightmapConstants = s.dirty.lightmapConstants := by
  unfold checkDirtyPixelLight
  dsimp only
  split_ifs <;> rfl

@[simp]
theorem checkDirtyPixelLight_dirty_lightmapTextures (env : RenderEnv) (s : CompositorState)
    (b : PipelineBatch) :
    (checkDirtyPixelLight env s b).dirty.lightmapTextures = s.dirty.lightmapTextures := by
  unfold checkDirtyPixelLight
  dsimp only
  split_ifs <;> rfl

@[simp]
theorem checkDirtyPixelLight_dirty_material (env : RenderEnv) (s : CompositorState)
    (b : PipelineBatch) :
    (checkDirtyPixelLight env s b).dirty.material = s.dirty.material := by
  unfold checkDirtyPixelLight
  dsimp only
  split_ifs <;> rfl

@[simp]
theorem checkDirtyPixelLight_dirty_geometry (env : RenderEnv) (s : CompositorState)
    (b : PipelineBatch) :
    (checkDirtyPixelLight env s b).dirty.geometry = s.dirty.geometry := by
  unfold checkDirtyPixelLight
  dsimp only
  split_ifs <;> rfl

@[simp]
theorem checkDirtyPixelLight_dirty_pixelConstants (env : RenderEnv) (s : CompositorState)
    (b : PipelineBatch) :
    (checkDirtyPixelLight env s b).dirty.pixelLightConstants
      = decide (s.current.pixelLightIndex ≠ b.lightIndex) := by
  unfold checkDirtyPixelLight
  dsimp only
  split_ifs with h1 h2 h3 <;> simp_all

@[simp]
theorem checkDirtyPixelLight_current_pipelineState (env : RenderEnv) (s : CompositorState)
    (b : PipelineBatch) :
    (checkDirtyPixelLight env s b).current.pipelineState = s.current.pipelineState := by
  unfold checkDirtyPixelLight
  dsimp only
  split_ifs <;> rfl

@[simp]
theorem checkDirtyPixelLight_current_bias (env : RenderEnv) (s : CompositorState)
    (b : PipelineBatch) :
    (checkDirtyPixelLight env s b).current.constantDepthBias = s.current.constantDepthBias := by
  unfold checkDirtyPixelLight
  dsimp only
  split_ifs <;> rfl

@[simp]
theorem checkDirtyPixelLight_current_material (env : RenderEnv) (s : CompositorState)
    (b : PipelineBatch) :
    (checkDirtyPixelLight env s b).current.material = s.current.material := by
  unfold checkDirtyPixelLight
  dsimp only
  split_ifs <;> rfl

@[simp]
theorem checkDirtyPixelLight_current_geometry (env : RenderEnv) (s : CompositorState)
    (b : PipelineBatch) :
    (checkDirtyPixelLight env s b).current.geometry = s.current.geometry := by
  unfold checkDirtyPixelLight
  dsimp only
  split_ifs <;> rfl

@[simp]
theorem checkDirtyPixelLight_current_vertexLights (env : RenderEnv) (s : CompositorState)
    (b : PipelineBatch) :
    (checkDirtyPixelLight env s b).current.vertexLights = s.current.vertexLights := by
  unfold checkDirtyPixelLight
  dsimp only
  split_ifs <;> rfl

@[simp]
theorem checkDirtyPixelLight_current_vertexLightsData (env : RenderEnv) (s : CompositorState)
    (b : PipelineBatch) :
    (checkDirtyPixelLight env s b).current.vertexLightsData = s.current.vertexLightsData := by
  unfold checkDirtyPixelLight
  dsimp only
  split_ifs <;> rfl

@[simp]
theorem checkDirtyPixelLight_current_lightmapTexture (env : RenderEnv) (s : CompositorState)
    (b : PipelineBatch) :
    (checkDirtyPixelLight env s b).current.lightmapTexture = s.current.lightmapTexture := by
  unfold checkDirtyPixelLight
  dsimp only
  split_ifs <;> rfl

@[simp]
theorem checkDirtyPixelLight_current_lightmapScaleOffset (env : RenderEnv) (s : CompositorState)
    (b : PipelineBatch) :
    (checkDirtyPixelLight env s b).current.lightmapScaleOffset
      = s.current.lightmapScaleOffset := by
  unfold checkDirtyPixelLight
  dsimp only
  split_ifs <;> rfl

@[simp]
theorem checkDirtyPixelLight_current_index (env : RenderEnv) (s : CompositorState)
    (b : PipelineBatch) :
    (checkDirtyPixelLight env s b).current.pixelLightIndex = b.lightIndex := by
  unfold checkDirtyPixelLight
  dsimp only
  split_ifs with h1 h2 h3 <;> simp_all

/-- When the light index is unchanged, `CheckDirtyPixelLight` only clears the
pixel-light-constants flag (the texture flag keeps its previous value). -/
theorem checkDirtyPixelLight_clean (env : RenderEnv) (s : CompositorState) (b : PipelineBatch)
    (h : s.current.pixelLightIndex = b.lightIndex) :
    checkDirtyPixelLight env s b
      = { s with dirty := { s.dirty with pixelLightConstants := false } } := by
  unfold checkDirtyPixelLight
  simp [h]

@[simp]
theorem checkDirtyVertexLight_queue (st : BatchRendererSettings) (env : RenderEnv)
    (s : CompositorState) (vl : List Nat) :
    (checkDirtyVertexLight st env s vl).queue = s.queue := by
  unfold checkDirtyVertexLight
  dsimp only
  split_ifs <;> rfl

@[simp]
theorem checkDirtyVertexLight_group (st : BatchRendererSettings) (env : RenderEnv)
    (s : CompositorState) (vl : List Nat) :
    (checkDirtyVertexLight st env s vl).instancingGroup = s.instancingGroup := by
  unfold checkDirtyVertexLight
  dsimp only
  split_ifs <;> rfl

@[simp]
theorem checkDirtyVertexLight_buffer (st : BatchRendererSettings) (env : RenderEnv)
    (s : CompositorState) (vl : List Nat) :
    (checkDirtyVertexLight st env s vl).instancingBufferNext = s.instancingBufferNext := by
  unfold checkDirtyVertexLight
  dsimp only
  split_ifs <;> rfl

@[simp]
theorem checkDirtyVertexLight_ghost (st : BatchRendererSettings) (env : RenderEnv)
    (s : CompositorState) (vl : List Nat) :
    (checkDirtyVertexLight st env s vl).openRunBatches = s.openRunBatches := by
  unfold checkDirtyVertexLight
  dsimp only
  split_ifs <;> rfl

@[simp]
theorem checkDirtyVertexLight_object (st : BatchRendererSettings) (env : RenderEnv)
    (s : CompositorState) (vl : List Nat) :
    (checkDirtyVertexLight st env s vl).object = s.object := by
  unfold checkDirtyVertexLight
  dsimp only
  split_ifs <;> rfl

@[simp]
theorem checkDirtyVertexLight_dirty_pipelineState (st : BatchRendererSettings) (env : RenderEnv)
    (s : CompositorState) (vl : List Nat) :
    (checkDirtyVertexLight st env s vl).dirty.pipelineState = s.dirty.pipelineState := by
  unfold checkDirtyVertexLight
  dsimp only
  split_ifs <;> rfl

@[simp]
theorem checkDirtyVertexLight_dirty_frame (st : BatchRendererSettings) (env : RenderEnv)
    (s : CompositorState) (vl : List Nat) :
    (checkDirtyVertexLight st env s vl).dirty.frameConstants = s.dirty.frameConstants := by
  unfold checkDirtyVertexLight
  dsimp only
  split_ifs <;> rfl

@[simp]
theorem checkDirtyVertexLight_dirty_camera (st : BatchRendererSettings) (env : RenderEnv)
    (s : CompositorState) (vl : List Nat) :
    (checkDirtyVertexLight st env s vl).dirty.cameraConstants = s.dirty.cameraConstants := by
  unfold checkDirtyVertexLight
  dsimp only
  split_ifs <;> rfl

@[simp]
theorem checkDirtyVertexLight_dirty_pixelConstants (st : BatchRendererSettings) (env : RenderEnv)
    (s : CompositorState) (vl : List Nat) :
    (checkDirtyVertexLight st env s vl).dirty.pixelLightConstants
      = s.dirty.pixelLightConstants := by
  unfold checkDirtyVertexLight
  dsimp only
  split_ifs <;> rfl

@[simp]
theorem checkDirtyVertexLight_dirty_pixelTextures (st : BatchRendererSettings) (env : RenderEnv)
    (s : CompositorState) (vl : List Nat) :
    (checkDirtyVertexLight st env s vl).dirty.pixelLightTextures
      = s.dirty.pixelLightTextures := by
  unfold checkDirtyVertexLight
  dsimp only
  split_ifs <;> rfl

@[simp]
theorem checkDirtyVertexLight_dirty_lightmapConstants (st : BatchRendererSettings)
    (env : RenderEnv) (s : CompositorState) (vl : List Nat) :
    (checkDirtyVertexLight st env s vl).dirty.lightmapConstants
      = s.dirty.lightmapConstants := by
  unfold checkDirtyVertexLight
  dsimp only
  split_ifs <;> rfl

@[simp]
theorem checkDirtyVertexLight_dirty_lightmapTextures (st : BatchRendererSettings)
    (env : RenderEnv) (s : CompositorState) (vl : List Nat) :
    (checkDirtyVertexLight st env s vl).dirty.lightmapTextures
      = s.dirty.lightmapTextures := by
  unfold checkDirtyVertexLight
  dsimp only
  split_ifs <;> rfl

@[simp]
theorem checkDirtyVertexLight_dirty_material (st : BatchRendererSettings) (env : RenderEnv)
    (s : CompositorState) (vl : List Nat) :
    (checkDirtyVertexLight st env s vl).dirty.material = s.dirty.material := by
  unfold checkDirtyVertexLight
  dsimp only
  split_ifs <;> rfl

@[simp]
theorem checkDirtyVertexLight_dirty_geometry (st : BatchRendererSettings) (env : RenderEnv)
    (s : CompositorState) (vl : List Nat) :
    (checkDirtyVertexLight st env s vl).dirty.geometry = s.dirty.geometry := by
  unfold checkDirtyVertexLight
  dsimp only
  split_ifs <;> rfl

@[simp]
theorem checkDirtyVertexLight_dirty_vertex (st : BatchRendererSettings) (env : RenderEnv)
    (s : CompositorState) (vl : List Nat) :
    (checkDirtyVertexLight st env s vl).dirty.vertexLightConstants
      = decide (s.current.vertexLights ≠ vl) := by
  unfold checkDirtyVertexLight
  dsimp only
  split_ifs <;> simp_all

@[simp]
theorem checkDirtyVertexLight_current_pipelineState (st : BatchRendererSettings) (env : RenderEnv)
    (s : CompositorState) (vl : List Nat) :
    (checkDirtyVertexLight st env s vl).current.pipelineState = s.current.pipelineState := by
  unfold checkDirtyVertexLight
  dsimp only
  split_ifs <;> rfl

@[simp]
theorem checkDirtyVertexLight_current_bias (st : BatchRendererSettings) (env : RenderEnv)
    (s : CompositorState) (vl : List Nat) :
    (checkDirtyVertexLight st env s vl).current.constantDepthBias
      = s.current.constantDepthBias := by
  unfold checkDirtyVertexLight
  dsimp only
  split_ifs <;> rfl

@[simp]
theorem checkDirtyVertexLight_current_material (st : BatchRendererSettings) (env : RenderEnv)
    (s : CompositorState) (vl : List Nat) :
    (checkDirtyVertexLight st env s vl).current.material = s.current.material := by
  unfold checkDirtyVertexLight
  dsimp only
  split_ifs <;> rfl

@[simp]
theorem checkDirtyVertexLight_current_geometry (st : BatchRendererSettings) (env : RenderEnv)
    (s : CompositorState) (vl : List Nat) :
    (checkDirtyVertexLight st env s vl).current.geometry = s.current.geometry := by
  unfold checkDirtyVertexLight
  dsimp only
  split_ifs <;> rfl

@[simp]
theorem checkDirtyVertexLight_current_pixelIndex (st : BatchRendererSettings) (env : RenderEnv)
    (s : CompositorState) (vl : List Nat) :
    (checkDirtyVertexLight st env s vl).current.pixelLightIndex
      = s.current.pixelLightIndex := by
  unfold checkDirtyVertexLight
  dsimp only
  split_ifs <;> rfl

@[simp]
theorem checkDirtyVertexLight_current_lightmapTexture (st : BatchRendererSettings)
    (env : RenderEnv) (s : CompositorState) (vl : List Nat) :
    (checkDirtyVertexLight st env s vl).current.lightmapTexture
      = s.current.lightmapTexture := by
  unfold checkDirtyVertexLight
  dsimp only
  split_ifs <;> rfl

@[simp]
theorem checkDirtyVertexLight_current_lightmapScaleOffset (st : BatchRendererSettings)
    (env : RenderEnv) (s : CompositorState) (vl : List Nat) :
    (checkDirtyVertexLight st env s vl).current.lightmapScaleOffset
      = s.current.lightmapScaleOffset := by
  unfold checkDirtyVertexLight
  dsimp only
  split_ifs <;> rfl

@[simp]
theorem checkDirtyVertexLight_current_vertexLights (st : BatchRendererSettings) (env : RenderEnv)
    (s : CompositorState) (vl : List Nat) :
    (checkDirtyVertexLight st env s vl).current.vertexLights = vl := by
  unfold checkDirtyVertexLight
  dsimp only
  split_ifs <;> rfl

/-- When the vertex-light container is unchanged, `CheckDirtyVertexLight` only
clears the vertex-light flag and re-stores the identical container. -/
theorem checkDirtyVertexLight_clean (st : BatchRendererSettings) (env : RenderEnv)
    (s : CompositorState) (vl : List Nat) (h : s.current.vertexLights = vl) :
    checkDirtyVertexLight st env s vl
      = { s with
          dirty := { s.dirty with vertexLightConstants := false }
          current := { s.current with vertexLights := vl } } := by
  unfold checkDirtyVertexLight
  simp [h]

@[simp]
theorem checkDirtyLightmap_queue (env : RenderEnv) (s : CompositorState) (sb : SourceBatch) :
    (checkDirtyLightmap env s sb).queue = s.queue := by
  unfold checkDirtyLightmap
  dsimp only
  split_ifs <;> rfl

@[simp]
theorem checkDirtyLightmap_group (env : RenderEnv) (s : CompositorState) (sb : SourceBatch) :
    (checkDirtyLightmap env s sb).instancingGroup = s.instancingGroup := by
  unfold checkDirtyLightmap
  dsimp only
  split_ifs <;> rfl

@[simp]
theorem checkDirtyLightmap_buffer (env : RenderEnv) (s : CompositorState) (sb : SourceBatch) :
    (checkDirtyLightmap env s sb).instancingBufferNext = s.instancingBufferNext := by
  unfold checkDirtyLightmap
  dsimp only
  split_ifs <;> rfl

@[simp]
theorem checkDirtyLightmap_ghost (env : RenderEnv) (s : CompositorState) (sb : SourceBatch) :
    (checkDirtyLightmap env s sb).openRunBatches = s.openRunBatches := by
  unfold checkDirtyLightmap
  dsimp only
  split_ifs <;> rfl

@[simp]
theorem checkDirtyLightmap_object (env : RenderEnv) (s : CompositorState) (sb : SourceBatch) :
    (checkDirtyLightmap env s sb).object = s.object := by
  unfold checkDirtyLightmap
  dsimp only
  split_ifs <;> rfl

@[simp]
theorem checkDirtyLightmap_dirty_pipelineState (env : RenderEnv) (s : CompositorState)
    (sb : SourceBatch) :
    (checkDirtyLightmap env s sb).dirty.pipelineState = s.dirty.pipelineState := by
  unfold checkDirtyLightmap
  dsimp only
  split_ifs <;> rfl

@[simp]
theorem checkDirtyLightmap_dirty_frame (env : RenderEnv) (s : CompositorState)
    (sb : SourceBatch) :
    (checkDirtyLightmap env s sb).dirty.frameConstants = s.dirty.frameConstants := by
  unfold checkDirtyLightmap
  dsimp only
  split_ifs <;> rfl

@[simp]
theorem checkDirtyLightmap_dirty_camera (env : RenderEnv) (s : CompositorState)
    (sb : SourceBatch) :
    (checkDirtyLightmap env s sb).dirty.cameraConstants = s.dirty.cameraConstants := by
  unfold checkDirtyLightmap
  dsimp only
  split_ifs <;> rfl

@[simp]
theorem checkDirtyLightmap_dirty_pixelConstants (env : RenderEnv) (s : CompositorState)
    (sb : SourceBatch) :
    (checkDirtyLightmap env s sb).dirty.pixelLightConstants = s.dirty.pixelLightConstants := by
  unfold checkDirtyLightmap
  dsimp only
  split_ifs <;> rfl

@[simp]
theorem checkDirtyLightmap_dirty_pixelTextures (env : RenderEnv) (s : CompositorState)
    (sb : SourceBatch) :
    (checkDirtyLightmap env s sb).dirty.pixelLightTextures = s.dirty.pixelLightTextures := by
  unfold checkDirtyLightmap
  dsimp only
  split_ifs <;> rfl

@[simp]
theorem checkDirtyLightmap_dirty_vertex (env : RenderEnv) (s : CompositorState)
    (sb : SourceBatch) :
    (checkDirtyLightmap env s sb).dirty.vertexLightConstants = s.dirty.vertexLightConstants := by
  unfold checkDirtyLightmap
  dsimp only
  split_ifs <;> rfl

@[simp]
theorem checkDirtyLightmap_dirty_material (env : RenderEnv) (s : CompositorState)
    (sb : SourceBatch) :
    (checkDirtyLightmap env s sb).dirty.material = s.dirty.material := by
  unfold checkDirtyLightmap
  dsimp only
  split_ifs <;> rfl

@[simp]
theorem checkDirtyLightmap_dirty_geometry (env : RenderEnv) (s : CompositorState)
    (sb : SourceBatch) :
    (checkDirtyLightmap env s sb).dirty.geometry = s.dirty.geometry := by
  unfold checkDirtyLightmap
  dsimp only
  split_ifs <;> rfl

@[simp]
theorem checkDirtyLightmap_dirty_lightmapConstants (env : RenderEnv) (s : CompositorState)
    (sb : SourceBatch) :
    (checkDirtyLightmap env s sb).dirty.lightmapConstants
      = decide (s.current.lightmapScaleOffset ≠ sb.lightmapScaleOffset) := by
  unfold checkDirtyLightmap
  dsimp only
  split_ifs <;> simp_all

@[simp]
theorem checkDirtyLightmap_current_pipelineState (env : RenderEnv) (s : CompositorState)
    (sb : SourceBatch) :
    (checkDirtyLightmap env s sb).current.pipelineState = s.current.pipelineState := by
  unfold checkDirtyLightmap
  dsimp only
  split_ifs <;> rfl

@[simp]
theorem checkDirtyLightmap_current_bias (env : RenderEnv) (s : CompositorState)
    (sb : SourceBatch) :
    (checkDirtyLightmap env s sb).current.constantDepthBias = s.current.constantDepthBias := by
  unfold checkDirtyLightmap
  dsimp only
  split_ifs <;> rfl

@[simp]
theorem checkDirtyLightmap_current_material (env : RenderEnv) (s : CompositorState)
    (sb : SourceBatch) :
    (checkDirtyLightmap env s sb).current.material = s.current.material := by
  unfold checkDirtyLightmap
  dsimp only
  split_ifs <;> rfl

@[simp]
theorem checkDirtyLightmap_current_geometry (env : RenderEnv) (s : CompositorState)
    (sb : SourceBatch) :
    (checkDirtyLightmap env s sb).current.geometry = s.current.geometry := by
  unfold checkDirtyLightmap
  dsimp only
  split_ifs <;> rfl

@[simp]
theorem checkDirtyLightmap_current_pixelIndex (env : RenderEnv) (s : CompositorState)
    (sb : SourceBatch) :
    (checkDirtyLightmap env s sb).current.pixelLightIndex = s.current.pixelLightIndex := by
  unfold checkDirtyLightmap
  dsimp only
  split_ifs <;> rfl

@[simp]
theorem checkDirtyLightmap_current_vertexLights (env : RenderEnv) (s : CompositorState)
    (sb : SourceBatch) :
    (checkDirtyLightmap env s sb).current.vertexLights = s.current.vertexLights := by
  unfold checkDirtyLightmap
  dsimp only
  split_ifs <;> rfl

@[simp]
theorem checkDirtyLightmap_current_lightmapScaleOffset (env : RenderEnv) (s : CompositorState)
    (sb : SourceBatch) :
    (checkDirtyLightmap env s sb).current.lightmapScaleOffset = sb.lightmapScaleOffset := by
  unfold checkDirtyLightmap
  dsimp only
  split_ifs <;> simp_all

/-- When the lightmap scale/offset record is unchanged, `CheckDirtyLightmap`
only clears the lightmap-constants flag (the texture flag keeps its previous
value). -/
theorem checkDirtyLightmap_clean (env : RenderEnv) (s : CompositorState) (sb : SourceBatch)
    (h : s.current.lightmapScaleOffset = sb.lightmapScaleOffset) :
    checkDirtyLightmap env s sb
      = { s with dirty := { s.dirty with lightmapConstants := false } } := by
  unfold checkDirtyLightmap
  simp [h]

/-! ## Effect lemmas for the commit and draw operations -/

theorem DirtyStateFlags.eta_pipelineState (d : DirtyStateFlags) (h : d.pipelineState = false) :
    ({ d with pipelineState := false } : DirtyStateFlags) = d := by
  cases d
  simp_all

theorem DirtyStateFlags.eta_frame (d : DirtyStateFlags) (h : d.frameConstants = false) :
    ({ d with frameConstants := false } : DirtyStateFlags) = d := by
  cases d
  simp_all

theorem DirtyStateFlags.eta_camera (d : DirtyStateFlags) (h : d.cameraConstants = false) :
    ({ d with cameraConstants := false } : DirtyStateFlags) = d := by
  cases d
  simp_all

@[simp]
theorem commitPipelineState_current (s : CompositorState) :
    (commitPipelineState s).current = s.current := by
  unfold commitPipelineState
  split_ifs <;> rfl

@[simp]
theorem commitPipelineState_object (s : CompositorState) :
    (commitPipelineState s).object = s.object := by
  unfold commitPipelineState
  split_ifs <;> rfl

@[simp]
theorem commitPipelineState_group (s : CompositorState) :
    (commitPipelineState s).instancingGroup = s.instancingGroup := by
  unfold commitPipelineState
  split_ifs <;> rfl

@[simp]
theorem commitPipelineState_buffer (s : CompositorState) :
    (commitPipelineState s).instancingBufferNext = s.instancingBufferNext := by
  unfold commitPipelineState
  split_ifs <;> rfl

@[simp]
theorem commitPipelineState_ghost (s : CompositorState) :
    (commitPipelineState s).openRunBatches = s.openRunBatches := by
  unfold commitPipelineState
  split_ifs <;> rfl

@[simp]
theorem commitPipelineState_dirty (s : CompositorState) :
    (commitPipelineState s).dirty = { s.dirty with pipelineState := false } := by
  unfold commitPipelineState
  split_ifs with h
  · rfl
  · simp at h
    exact (DirtyStateFlags.eta_pipelineState s.dirty h).symm

@[simp]
theorem commitFrameGroup_current (s : CompositorState) :
    (commitFrameGroup s).current = s.current := by
  unfold commitFrameGroup
  split_ifs <;> rfl

@[simp]
theorem commitFrameGroup_object (s : CompositorState) :
    (commitFrameGroup s).object = s.object := by
  unfold commitFrameGroup
  split_ifs <;> rfl

@[simp]
theorem commitFrameGroup_group (s : CompositorState) :
    (commitFrameGroup s).instancingGroup = s.instancingGroup := by
  unfold commitFrameGroup
  split_ifs <;> rfl

@[simp]
theorem commitFrameGroup_buffer (s : CompositorState) :
    (commitFrameGroup s).instancingBufferNext = s.instancingBufferNext := by
  unfold commitFrameGroup
  split_ifs <;> rfl

@[simp]
theorem commitFrameGroup_ghost (s : CompositorState) :
    (commitFrameGroup s).openRunBatches = s.openRunBatches := by
  unfold commitFrameGroup
  split_ifs <;> rfl

@[simp]
theorem commitFrameGroup_dirty (s : CompositorState) :
    (commitFrameGroup s).dirty = { s.dirty with frameConstants := false } := by
  unfold commitFrameGroup
  split_ifs with h
  · rfl
  · simp [DrawQueueState.beginShaderParameterGroup] at h
    exact (DirtyStateFlags.eta_frame s.dirty h.1).symm

@[simp]
theorem commitCameraGroup_current (s : CompositorState) :
    (commitCameraGroup s).current = s.current := by
  unfold commitCameraGroup
  split_ifs <;> rfl

@[simp]
theorem commitCameraGroup_object (s : CompositorState) :
    (commitCameraGroup s).object = s.object := by
  unfold commitCameraGroup
  split_ifs <;> rfl

@[simp]
theorem commitCameraGroup_group (s : CompositorState) :
    (commitCameraGroup s).instancingGroup = s.instancingGroup := by
  unfold commitCameraGroup
  split_ifs <;> rfl

@[simp]
theorem commitCameraGroup_buffer (s : CompositorState) :
    (commitCameraGroup s).instancingBufferNext = s.instancingBufferNext := by
  unfold commitCameraGroup
  split_ifs <;> rfl

@[simp]
theorem commitCameraGroup_ghost (s : CompositorState) :
    (commitCameraGroup s).openRunBatches = s.openRunBatches := by
  unfold commitCameraGroup
  split_ifs <;> rfl

@[simp]
theorem commitCameraGroup_dirty (s : CompositorState) :
    (commitCameraGroup s).dirty = { s.dirty with cameraConstants := false } := by
  unfold commitCameraGroup
  split_ifs with h
  · rfl
  · simp [DrawQueueState.beginShaderParameterGroup] at h
    exact (DirtyStateFlags.eta_camera s.dirty h.1).symm

@[simp]
theorem commitLightGroup_current (cfg : CompositorConfig) (s : CompositorState) :
    (commitLightGroup cfg s).current = s.current := by
  unfold commitLightGroup
  split_ifs <;> rfl

@[simp]
theorem commitLightGroup_object (cfg : CompositorConfig) (s : CompositorState) :
    (commitLightGroup cfg s).object = s.object := by
  unfold commitLightGroup
  split_ifs <;> rfl

@[simp]
theorem commitLightGroup_group (cfg : CompositorConfig) (s : CompositorState) :
    (commitLightGroup cfg s).instancingGroup = s.instancingGroup := by
  unfold commitLightGroup
  split_ifs <;> rfl

@[simp]
theorem commitLightGroup_buffer (cfg : CompositorConfig) (s : CompositorState) :
    (commitLightGroup cfg s).instancingBufferNext = s.instancingBufferNext := by
  unfold commitLightGroup
  split_ifs <;> rfl

@[simp]
theorem commitLightGroup_ghost (cfg : CompositorConfig) (s : CompositorState) :
    (commitLightGroup cfg s).openRunBatches = s.openRunBatches := by
  unfold commitLightGroup
  split_ifs <;> rfl

@[simp]
theorem commitLightGroup_dirty (cfg : CompositorConfig) (s : CompositorState) :
    (commitLightGroup cfg s).dirty = s.dirty := by
  unfold commitLightGroup
  split_ifs <;> rfl

@[simp]
theorem commitMaterialGroup_current (s : CompositorState) :
    (commitMaterialGroup s).current = s.current := by
  unfold commitMaterialGroup
  split_ifs <;> rfl

@[simp]
theorem commitMaterialGroup_object (s : CompositorState) :
    (commitMaterialGroup s).object = s.object := by
  unfold commitMaterialGroup
  split_ifs <;> rfl

@[simp]
theorem commitMaterialGroup_group (s : CompositorState) :
    (commitMaterialGroup s).instancingGroup = s.instancingGroup := by
  unfold commitMaterialGroup
  split_ifs <;> rfl

@[simp]
theorem commitMaterialGroup_buffer (s : CompositorState) :
    (commitMaterialGroup s).instancingBufferNext = s.instancingBufferNext := by
  unfold commitMaterialGroup
  split_ifs <;> rfl

@[simp]
theorem commitMaterialGroup_ghost (s : CompositorState) :
    (commitMaterialGroup s).openRunBatches = s.openRunBatches := by
  unfold commitMaterialGroup
  split_ifs <;> rfl

@[simp]
theorem commitMaterialGroup_dirty (s : CompositorState) :
    (commitMaterialGroup s).dirty = s.dirty := by
  unfold commitMaterialGroup
  split_ifs <;> rfl

@[simp]
theorem commitPipelineState_countDraws (s : CompositorState) :
    countDraws (commitPipelineState s).queue.commands = countDraws s.queue.commands := by
  unfold commitPipelineState
  split_ifs <;> simp [countDraws, DrawQueueState.push, isDrawCommand]

@[simp]
theorem commitPipelineState_countDirect (s : CompositorState) :
    countDirectDraws (commitPipelineState s).queue.commands
      = countDirectDraws s.queue.commands := by
  unfold commitPipelineState
  split_ifs <;> simp [countDirectDraws, DrawQueueState.push, isDirectDraw]

@[simp]
theorem commitPipelineState_countInstanced (s : CompositorState) :
    countInstancedDraws (commitPipelineState s).queue.commands
      = countInstancedDraws s.queue.commands := by
  unfold commitPipelineState
  split_ifs <;> simp [countInstancedDraws, DrawQueueState.push, isInstancedDraw]

@[simp]
theorem commitPipelineState_countObject (s : CompositorState) :
    countObjectCommits (commitPipelineState s).queue.commands
      = countObjectCommits s.queue.commands := by
  unfold commitPipelineState
  split_ifs <;> simp [countObjectCommits, DrawQueueState.push]

@[simp]
theorem commitFrameGroup_countDraws (s : CompositorState) :
    countDraws (commitFrameGroup s).queue.commands = countDraws s.queue.commands := by
  unfold commitFrameGroup
  split_ifs <;> simp [countDraws, DrawQueueState.commitShaderParameterGroup, isDrawCommand]

@[simp]
theorem commitFrameGroup_countDirect (s : CompositorState) :
    countDirectDraws (commitFrameGroup s).queue.commands = countDirectDraws s.queue.commands := by
  unfold commitFrameGroup
  split_ifs <;> simp [countDirectDraws, DrawQueueState.commitShaderParameterGroup, isDirectDraw]

@[simp]
theorem commitFrameGroup_countInstanced (s : CompositorState) :
    countInstancedDraws (commitFrameGroup s).queue.commands
      = countInstancedDraws s.queue.commands := by
  unfold commitFrameGroup
  split_ifs <;>
    simp [countInstancedDraws, DrawQueueState.commitShaderParameterGroup, isInstancedDraw]

@[simp]
theorem commitFrameGroup_countObject (s : CompositorState) :
    countObjectCommits (commitFrameGroup s).queue.commands
      = countObjectCommits s.queue.commands := by
  unfold commitFrameGroup
  split_ifs <;> simp [countObjectCommits, DrawQueueState.commitShaderParameterGroup]

@[simp]
theorem commitCameraGroup_countDraws (s : CompositorState) :
    countDraws (commitCameraGroup s).queue.commands = countDraws s.queue.commands := by
  unfold commitCameraGroup
  split_ifs <;> simp [countDraws, DrawQueueState.commitShaderParameterGroup, isDrawCommand]

@[simp]
theorem commitCameraGroup_countDirect (s : CompositorState) :
    countDirectDraws (commitCameraGroup s).queue.commands
      = countDirectDraws s.queue.commands := by
  unfold commitCameraGroup
  split_ifs <;> simp [countDirectDraws, DrawQueueState.commitShaderParameterGroup, isDirectDraw]

@[simp]
theorem commitCameraGroup_countInstanced (s : CompositorState) :
    countInstancedDraws (commitCameraGroup s).queue.commands
      = countInstancedDraws s.queue.commands := by
  unfold commitCameraGroup
  split_ifs <;>
    simp [countInstancedDraws, DrawQueueState.commitShaderParameterGroup, isInstancedDraw]

@[simp]
theorem commitCameraGroup_countObject (s : CompositorState) :
    countObjectCommits (commitCameraGroup s).queue.commands
      = countObjectCommits s.queue.commands := by
  unfold commitCameraGroup
  split_ifs <;> simp [countObjectCommits, DrawQueueState.commitShaderParameterGroup]

@[simp]
theorem commitLightGroup_countDraws (cfg : CompositorConfig) (s : CompositorState) :
    countDraws (commitLightGroup cfg s).queue.commands = countDraws s.queue.commands := by
  unfold commitLightGroup
  split_ifs <;> simp [countDraws, DrawQueueState.commitShaderParameterGroup, isDrawCommand]

@[simp]
theorem commitLightGroup_countDirect (cfg : CompositorConfig) (s : CompositorState) :
    countDirectDraws (commitLightGroup cfg s).queue.commands
      = countDirectDraws s.queue.commands := by
  unfold commitLightGroup
  split_ifs <;> simp [countDirectDraws, DrawQueueState.commitShaderParameterGroup, isDirectDraw]

@[simp]
theorem commitLightGroup_countInstanced (cfg : CompositorConfig) (s : CompositorState) :
    countInstancedDraws (commitLightGroup cfg s).queue.commands
      = countInstancedDraws s.queue.commands := by
  unfold commitLightGroup
  split_ifs <;>
    simp [countInstancedDraws, DrawQueueState.commitShaderParameterGroup, isInstancedDraw]

@[simp]
theorem commitLightGroup_countObject (cfg : CompositorConfig) (s : CompositorState) :
    countObjectCommits (commitLightGroup cfg s).queue.commands
      = countObjectCommits s.queue.commands := by
  unfold commitLightGroup
  split_ifs <;> simp [countObjectCommits, DrawQueueState.commitShaderParameterGroup]

@[simp]
theorem commitMaterialGroup_countDraws (s : CompositorState) :
    countDraws (commitMaterialGroup s).queue.commands = countDraws s.queue.commands := by
  unfold commitMaterialGroup
  split_ifs <;> simp [countDraws, DrawQueueState.commitShaderParameterGroup, isDrawCommand]

@[simp]
theorem commitMaterialGroup_countDirect (s : CompositorState) :
    countDirectDraws (commitMaterialGroup s).queue.commands
      = countDirectDraws s.queue.commands := by
  unfold commitMaterialGroup
  split_ifs <;> simp [countDirectDraws, DrawQueueState.commitShaderParameterGroup, isDirectDraw]

@[simp]
theorem commitMaterialGroup_countInstanced (s : CompositorState) :
    countInstancedDraws (commitMaterialGroup s).queue.commands
      = countInstancedDraws s.queue.commands := by
  unfold commitMaterialGroup
  split_ifs <;>
    simp [countInstancedDraws, DrawQueueState.commitShaderParameterGroup, isInstancedDraw]

@[simp]
theorem commitMaterialGroup_countObject (s : CompositorState) :
    countObjectCommits (commitMaterialGroup s).queue.commands
      = countObjectCommits s.queue.commands := by
  unfold commitMaterialGroup
  split_ifs <;> simp [countObjectCommits, DrawQueueState.commitShaderParameterGroup]

@[simp]
theorem countDraws_append (l1 l2 : List DrawCommand) :
    countDraws (l1 ++ l2) = countDraws l1 + countDraws l2 :=
  List.countP_append _ _ _

@[simp]
theorem countDirectDraws_append (l1 l2 : List DrawCommand) :
    countDirectDraws (l1 ++ l2) = countDirectDraws l1 + countDirectDraws l2 :=
  List.countP_append _ _ _

@[simp]
theorem countInstancedDraws_append (l1 l2 : List DrawCommand) :
    countInstancedDraws (l1 ++ l2) = countInstancedDraws l1 + countInstancedDraws l2 :=
  List.countP_append _ _ _

@[simp]
theorem countObjectCommits_append (l1 l2 : List DrawCommand) :
    countObjectCommits (l1 ++ l2) = countObjectCommits l1 + countObjectCommits l2 :=
  List.countP_append _ _ _

@[simp]
theorem countDraws_optionalBind (u : Nat) (o : Option Nat) :
    countDraws (optionalBind u o) = 0 := by
  cases o <;> rfl

@[simp]
theorem countDirectDraws_optionalBind (u : Nat) (o : Option Nat) :
    countDirectDraws (optionalBind u o) = 0 := by
  cases o <;> rfl

@[simp]
theorem countInstancedDraws_optionalBind (u : Nat) (o : Option Nat) :
    countInstancedDraws (optionalBind u o) = 0 := by
  cases o <;> rfl

@[simp]
theorem countObjectCommits_optionalBind (u : Nat) (o : Option Nat) :
    countObjectCommits (optionalBind u o) = 0 := by
  cases o <;> rfl

@[simp]
theorem updateDirtyResources_dirty (cfg : CompositorConfig) (env : RenderEnv)
    (s : CompositorState) :
    (updateDirtyResources cfg env s).dirty = s.dirty := by
  unfold updateDirtyResources
  dsimp only
  split_ifs <;> rfl

@[simp]
theorem updateDirtyResources_current (cfg : CompositorConfig) (env : RenderEnv)
    (s : CompositorState) :
    (updateDirtyResources cfg env s).current = s.current := by
  unfold updateDirtyResources
  dsimp only
  split_ifs <;> rfl

@[simp]
theorem updateDirtyResources_object (cfg : CompositorConfig) (env : RenderEnv)
    (s : CompositorState) :
    (updateDirtyResources cfg env s).object = s.object := by
  unfold updateDirtyResources
  dsimp only
  split_ifs <;> rfl

@[simp]
theorem updateDirtyResources_group (cfg : CompositorConfig) (env : RenderEnv)
    (s : CompositorState) :
    (updateDirtyResources cfg env s).instancingGroup = s.instancingGroup := by
  unfold updateDirtyResources
  dsimp only
  split_ifs <;> rfl

@[simp]
theorem updateDirtyResources_buffer (cfg : CompositorConfig) (env : RenderEnv)
    (s : CompositorState) :
    (updateDirtyResources cfg env s).instancingBufferNext = s.instancingBufferNext := by
  unfold updateDirtyResources
  dsimp only
  split_ifs <;> rfl

@[simp]
theorem updateDirtyResources_ghost (cfg : CompositorConfig) (env : RenderEnv)
    (s : CompositorState) :
    (updateDirtyResources cfg env s).openRunBatches = s.openRunBatches := by
  unfold updateDirtyResources
  dsimp only
  split_ifs <;> rfl

@[simp]
theorem countDraws_map_bind (l : List (Nat × Nat)) :
    countDraws (l.map (fun d => DrawCommand.addShaderResource d.1 d.2)) = 0 :=
  List.countP_eq_zero.mpr (by
    intro c hc
    simp only [List.mem_map] at hc
    obtain ⟨a, -, rfl⟩ := hc
    simp [isDrawCommand, isDirectDraw, isInstancedDraw])

@[simp]
theorem countDirectDraws_map_bind (l : List (Nat × Nat)) :
    countDirectDraws (l.map (fun d => DrawCommand.addShaderResource d.1 d.2)) = 0 :=
  List.countP_eq_zero.mpr (by
    intro c hc
    simp only [List.mem_map] at hc
    obtain ⟨a, -, rfl⟩ := hc
    simp [isDrawCommand, isDirectDraw, isInstancedDraw])

@[simp]
theorem countInstancedDraws_map_bind (l : List (Nat × Nat)) :
    countInstancedDraws (l.map (fun d => DrawCommand.addShaderResource d.1 d.2)) = 0 :=
  List.countP_eq_zero.mpr (by
    intro c hc
    simp only [List.mem_map] at hc
    obtain ⟨a, -, rfl⟩ := hc
    simp [isDrawCommand, isDirectDraw, isInstancedDraw])

@[simp]
theorem countObjectCommits_map_bind (l : List (Nat × Nat)) :
    countObjectCommits (l.map (fun d => DrawCommand.addShaderResource d.1 d.2)) = 0 :=
  List.countP_eq_zero.mpr (by
    intro c hc
    simp only [List.mem_map] at hc
    obtain ⟨a, -, rfl⟩ := hc
    simp [isDrawCommand, isDirectDraw, isInstancedDraw])

@[simp]
theorem countDraws_commitResources :
    countDraws [DrawCommand.commitShaderResources] = 0 := rfl

@[simp]
theorem countDirectDraws_commitResources :
    countDirectDraws [DrawCommand.commitShaderResources] = 0 := rfl

@[simp]
theorem countInstancedDraws_commitResources :
    countInstancedDraws [DrawCommand.commitShaderResources] = 0 := rfl

@[simp]
theorem countObjectCommits_commitResources :
    countObjectCommits [DrawCommand.commitShaderResources] = 0 := rfl

@[simp]
theorem updateDirtyResources_countDraws (cfg : CompositorConfig) (env : RenderEnv)
    (s : CompositorState) :
    countDraws (updateDirtyResources cfg env s).queue.commands
      = countDraws s.queue.commands := by
  by_cases h : (s.dirty.material || s.dirty.lightmapTextures || s.dirty.pixelLightTextures) = true
  · rw [(updateDirtyResources_commands cfg env s h).1]
    simp
  · rw [updateDirtyResources_clean cfg env s (by simpa using h)]

@[simp]
theorem updateDirtyResources_countDirect (cfg : CompositorConfig) (env : RenderEnv)
    (s : CompositorState) :
    countDirectDraws (updateDirtyResources cfg env s).queue.commands
      = countDirectDraws s.queue.commands := by
  by_cases h : (s.dirty.material || s.dirty.lightmapTextures || s.dirty.pixelLightTextures) = true
  · rw [(updateDirtyResources_commands cfg env s h).1]
    simp
  · rw [updateDirtyResources_clean cfg env s (by simpa using h)]

@[simp]
theorem updateDirtyResources_countInstanced (cfg : CompositorConfig) (env : RenderEnv)
    (s : CompositorState) :
    countInstancedDraws (updateDirtyResources cfg env s).queue.commands
      = countInstancedDraws s.queue.commands := by
  by_cases h : (s.dirty.material || s.dirty.lightmapTextures || s.dirty.pixelLightTextures) = true
  · rw [(updateDirtyResources_commands cfg env s h).1]
    simp
  · rw [updateDirtyResources_clean cfg env s (by simpa using h)]

@[simp]
theorem updateDirtyResources_countObject (cfg : CompositorConfig) (env : RenderEnv)
    (s : CompositorState) :
    countObjectCommits (updateDirtyResources cfg env s).queue.commands
      = countObjectCommits s.queue.commands := by
  by_cases h : (s.dirty.material || s.dirty.lightmapTextures || s.dirty.pixelLightTextures) = true
  · rw [(updateDirtyResources_commands cfg env s h).1]
    simp
  · rw [updateDirtyResources_clean cfg env s (by simpa using h)]

@[simp]
theorem updateDirtyConstants_current (cfg : CompositorConfig) (s : CompositorState) :
    (updateDirtyConstants cfg s).current = s.current := by
  unfold updateDirtyConstants
  simp

@[simp]
theorem updateDirtyConstants_object (cfg : CompositorConfig) (s : CompositorState) :
    (updateDirtyConstants cfg s).object = s.object := by
  unfold updateDirtyConstants
  simp

@[simp]
theorem updateDirtyConstants_group (cfg : CompositorConfig) (s : CompositorState) :
    (updateDirtyConstants cfg s).instancingGroup = s.instancingGroup := by
  unfold updateDirtyConstants
  simp

@[simp]
theorem updateDirtyConstants_buffer (cfg : CompositorConfig) (s : CompositorState) :
    (updateDirtyConstants cfg s).instancingBufferNext = s.instancingBufferNext := by
  unfold updateDirtyConstants
  simp

@[simp]
theorem updateDirtyConstants_ghost (cfg : CompositorConfig) (s : CompositorState) :
    (updateDirtyConstants cfg s).openRunBatches = s.openRunBatches := by
  unfold updateDirtyConstants
  simp

@[simp]
theorem updateDirtyConstants_dirty (cfg : CompositorConfig) (s : CompositorState) :
    (updateDirtyConstants cfg s).dirty
      = { s.dirty with
          pipelineState := false
          frameConstants := false
          cameraConstants := false } := by
  unfold updateDirtyConstants
  simp

@[simp]
theorem updateDirtyConstants_countDraws (cfg : CompositorConfig) (s : CompositorState) :
    countDraws (updateDirtyConstants cfg s).queue.commands = countDraws s.queue.commands := by
  unfold updateDirtyConstants
  simp

@[simp]
theorem updateDirtyConstants_countDirect (cfg : CompositorConfig) (s : CompositorState) :
    countDirectDraws (updateDirtyConstants cfg s).queue.commands
      = countDirectDraws s.queue.commands := by
  unfold updateDirtyConstants
  simp

@[simp]
theorem updateDirtyConstants_countInstanced (cfg : CompositorConfig) (s : CompositorState) :
    countInstancedDraws (updateDirtyConstants cfg s).queue.commands
      = countInstancedDraws s.queue.commands := by
  unfold updateDirtyConstants
  simp

@[simp]
theorem updateDirtyConstants_countObject (cfg : CompositorConfig) (s : CompositorState) :
    countObjectCommits (updateDirtyConstants cfg s).queue.commands
      = countObjectCommits s.queue.commands := by
  unfold updateDirtyConstants
  simp

theorem DirtyStateFlags.eta_geometry (d : DirtyStateFlags) (h : d.geometry = false) :
    ({ d with geometry := false } : DirtyStateFlags) = d := by
  cases d
  simp_all

@[simp]
theorem drawObject_current (env : RenderEnv) (s : CompositorState) :
    (drawObject env s).current = s.current := by
  unfold drawObject
  dsimp only
  split_ifs <;> rfl

@[simp]
theorem drawObject_object (env : RenderEnv) (s : CompositorState) :
    (drawObject env s).object = s.object := by
  unfold drawObject
  dsimp only
  split_ifs <;> rfl

@[simp]
theorem drawObject_group (env : RenderEnv) (s : CompositorState) :
    (drawObject env s).instancingGroup = s.instancingGroup := by
  unfold drawObject
  dsimp only
  split_ifs <;> rfl

@[simp]
theorem drawObject_buffer (env : RenderEnv) (s : CompositorState) :
    (drawObject env s).instancingBufferNext = s.instancingBufferNext := by
  unfold drawObject
  dsimp only
  split_ifs <;> rfl

@[simp]
theorem drawObject_ghost (env : RenderEnv) (s : CompositorState) :
    (drawObject env s).openRunBatches = s.openRunBatches := by
  unfold drawObject
  dsimp only
  split_ifs <;> rfl

@[simp]
theorem drawObject_dirty (env : RenderEnv) (s : CompositorState) :
    (drawObject env s).dirty = { s.dirty with geometry := false } := by
  unfold drawObject
  dsimp only
  split_ifs <;> (try rfl) <;> simp_all [DirtyStateFlags.eta_geometry]

/-- The command stream appended by `DrawObject`: an optional `SetBuffers` when
the geometry is dirty, then one indexed or non-indexed draw. -/
theorem drawObject_commands (env : RenderEnv) (s : CompositorState) :
    (drawObject env s).queue.commands
      = s.queue.commands
        ++ (if s.dirty.geometry then
              [DrawCommand.setBuffers (env.geom (s.current.geometry.getD 0)).vertexBuffers
                (env.geom (s.current.geometry.getD 0)).indexBuffer none]
            else [])
        ++ [if (env.geom (s.current.geometry.getD 0)).indexBuffer.isSome then
              DrawCommand.drawIndexed (env.geom (s.current.geometry.getD 0)).indexStart
                (env.geom (s.current.geometry.getD 0)).indexCount
            else
              DrawCommand.draw (env.geom (s.current.geometry.getD 0)).vertexStart
                (env.geom (s.current.geometry.getD 0)).vertexCount] := by
  unfold drawObject
  dsimp only
  split_ifs <;> simp [DrawQueueState.push]

@[simp]
theorem drawObject_countDraws (env : RenderEnv) (s : CompositorState) :
    countDraws (drawObject env s).queue.commands = countDraws s.queue.commands + 1 := by
  rw [drawObject_commands]
  split_ifs <;> simp [countDraws, isDrawCommand, List.countP_cons]

@[simp]
theorem drawObject_countDirect (env : RenderEnv) (s : CompositorState) :
    countDirectDraws (drawObject env s).queue.commands
      = countDirectDraws s.queue.commands + 1 := by
  rw [drawObject_commands]
  split_ifs <;> simp [countDirectDraws, isDirectDraw, List.countP_cons]

@[simp]
theorem drawObject_countInstanced (env : RenderEnv) (s : CompositorState) :
    countInstancedDraws (drawObject env s).queue.commands
      = countInstancedDraws s.queue.commands := by
  rw [drawObject_commands]
  split_ifs <;> simp [countInstancedDraws, isInstancedDraw, List.countP_cons]

@[simp]
theorem drawObject_countObject (env : RenderEnv) (s : CompositorState) :
    countObjectCommits (drawObject env s).queue.commands
      = countObjectCommits s.queue.commands := by
  rw [drawObject_commands]
  split_ifs <;> simp [countObjectCommits, List.countP_cons]

@[simp]
theorem drawObjectInstanced_commands (env : RenderEnv) (s : CompositorState) :
    (drawObjectInstanced env s).queue.commands
      = s.queue.commands
        ++ [DrawCommand.setBuffers (env.geom (s.instancingGroup.geometry.getD 0)).vertexBuffers
              (env.geom (s.instancingGroup.geometry.getD 0)).indexBuffer
              (some env.instancingVertexBuffer),
            DrawCommand.drawIndexedInstanced
              (env.geom (s.instancingGroup.geometry.getD 0)).indexStart
              (env.geom (s.instancingGroup.geometry.getD 0)).indexCount
              s.instancingGroup.start s.instancingGroup.count] := by
  unfold drawObjectInstanced
  simp [DrawQueueState.push]

@[simp]
theorem drawObjectInstanced_group (env : RenderEnv) (s : CompositorState) :
    (drawObjectInstanced env s).instancingGroup
      = { s.instancingGroup with count := 0 } := rfl

@[simp]
theorem drawObjectInstanced_ghost (env : RenderEnv) (s : CompositorState) :
    (drawObjectInstanced env s).openRunBatches = [] := rfl

@[simp]
theorem drawObjectInstanced_current (env : RenderEnv) (s : CompositorState) :
    (drawObjectInstanced env s).current = s.current := rfl

@[simp]
theorem drawObjectInstanced_dirty (env : RenderEnv) (s : CompositorState) :
    (drawObjectInstanced env s).dirty = s.dirty := rfl

@[simp]
theorem drawObjectInstanced_object (env : RenderEnv) (s : CompositorState) :
    (drawObjectInstanced env s).object = s.object := rfl

@[simp]
theorem drawObjectInstanced_buffer (env : RenderEnv) (s : CompositorState) :
    (drawObjectInstanced env s).instancingBufferNext = s.instancingBufferNext := rfl

@[simp]
theorem drawObjectInstanced_countDraws (env : RenderEnv) (s : CompositorState) :
    countDraws (drawObjectInstanced env s).queue.commands = countDraws s.queue.commands + 1 := by
  rw [drawObjectInstanced_commands]
  simp [countDraws, isDrawCommand, List.countP_cons]

@[simp]
theorem drawObjectInstanced_countDirect (env : RenderEnv) (s : CompositorState) :
    countDirectDraws (drawObjectInstanced env s).queue.commands
      = countDirectDraws s.queue.commands := by
  rw [drawObjectInstanced_commands]
  simp [countDirectDraws, isDirectDraw, List.countP_cons]

@[simp]
theorem drawObjectInstanced_countInstanced (env : RenderEnv) (s : CompositorState) :
    countInstancedDraws (drawObjectInstanced env s).queue.commands
      = countInstancedDraws s.queue.commands + 1 := by
  rw [drawObjectInstanced_commands]
  simp [countInstancedDraws, isInstancedDraw, List.countP_cons]

@[simp]
theorem drawObjectInstanced_countObject (env : RenderEnv) (s : CompositorState) :
    countObjectCommits (drawObjectInstanced env s).queue.commands
      = countObjectCommits s.queue.commands := by
  rw [drawObjectInstanced_commands]
  simp [countObjectCommits, List.countP_cons]

/-! ## Composite facts about the dirty-check phase -/

@[simp]
theorem processBatchChecks_queue (cfg : CompositorConfig) (env : RenderEnv)
    (s : CompositorState) (b : PipelineBatch) (sb : SourceBatch) :
    (processBatchChecks cfg env s b sb).queue = s.queue := by
  unfold processBatchChecks
  dsimp only
  split_ifs <;> simp

@[simp]
theorem processBatchChecks_group (cfg : CompositorConfig) (env : RenderEnv)
    (s : CompositorState) (b : PipelineBatch) (sb : SourceBatch) :
    (processBatchChecks cfg env s b sb).instancingGroup = s.instancingGroup := by
  unfold processBatchChecks
  dsimp only
  split_ifs <;> simp

@[simp]
theorem processBatchChecks_buffer (cfg : CompositorConfig) (env : RenderEnv)
    (s : CompositorState) (b : PipelineBatch) (sb : SourceBatch) :
    (processBatchChecks cfg env s b sb).instancingBufferNext = s.instancingBufferNext := by
  unfold processBatchChecks
  dsimp only
  split_ifs <;> simp

@[simp]
theorem processBatchChecks_ghost (cfg : CompositorConfig) (env : RenderEnv)
    (s : CompositorState) (b : PipelineBatch) (sb : SourceBatch) :
    (processBatchChecks cfg env s b sb).openRunBatches = s.openRunBatches := by
  unfold processBatchChecks
  dsimp only
  split_ifs <;> simp

@[simp]
theorem processBatchChecks_current_geometry (cfg : CompositorConfig) (env : RenderEnv)
    (s : CompositorState) (b : PipelineBatch) (sb : SourceBatch) :
    (processBatchChecks cfg env s b sb).current.geometry = some b.geometry := by
  unfold processBatchChecks
  dsimp only
  split_ifs <;> simp

@[simp]
theorem processBatchChecks_current_material (cfg : CompositorConfig) (env : RenderEnv)
    (s : CompositorState) (b : PipelineBatch) (sb : SourceBatch) :
    (processBatchChecks cfg env s b sb).current.material = some b.material := by
  unfold processBatchChecks
  dsimp only
  split_ifs <;> simp

@[simp]
theorem processBatchChecks_current_pipelineState (cfg : CompositorConfig) (env : RenderEnv)
    (s : CompositorState) (b : PipelineBatch) (sb : SourceBatch) :
    (processBatchChecks cfg env s b sb).current.pipelineState = some b.pipelineState := by
  unfold processBatchChecks
  dsimp only
  split_ifs <;> simp

@[simp]
theorem processBatchChecks_current_bias (cfg : CompositorConfig) (env : RenderEnv)
    (s : CompositorState) (b : PipelineBatch) (sb : SourceBatch) :
    (processBatchChecks cfg env s b sb).current.constantDepthBias
      = env.constantDepthBias b.pipelineState := by
  unfold processBatchChecks
  dsimp only
  split_ifs <;> simp

@[simp]
theorem processBatchChecks_dirty_geometry (cfg : CompositorConfig) (env : RenderEnv)
    (s : CompositorState) (b : PipelineBatch) (sb : SourceBatch) :
    (processBatchChecks cfg env s b sb).dirty.geometry
      = decide (s.current.geometry ≠ some b.geometry) := by
  unfold processBatchChecks
  dsimp only
  split_ifs <;> simp

@[simp]
theorem processBatchChecks_dirty_material (cfg : CompositorConfig) (env : RenderEnv)
    (s : CompositorState) (b : PipelineBatch) (sb : SourceBatch) :
    (processBatchChecks cfg env s b sb).dirty.material
      = decide (s.current.material ≠ some b.material) := by
  unfold processBatchChecks
  dsimp only
  split_ifs <;> simp

@[simp]
theorem processBatchChecks_dirty_pipelineState (cfg : CompositorConfig) (env : RenderEnv)
    (s : CompositorState) (b : PipelineBatch) (sb : SourceBatch) :
    (processBatchChecks cfg env s b sb).dirty.pipelineState
      = decide (s.current.pipelineState ≠ some b.pipelineState) := by
  unfold processBatchChecks
  dsimp only
  split_ifs <;> simp

@[simp]
theorem processBatchChecks_dirty_frame (cfg : CompositorConfig) (env : RenderEnv)
    (s : CompositorState) (b : PipelineBatch) (sb : SourceBatch) :
    (processBatchChecks cfg env s b sb).dirty.frameConstants = s.dirty.frameConstants := by
  unfold processBatchChecks
  dsimp only
  split_ifs <;> simp

@[simp]
theorem processBatchChecks_dirty_camera (cfg : CompositorConfig) (env : RenderEnv)
    (s : CompositorState) (b : PipelineBatch) (sb : SourceBatch) :
    (processBatchChecks cfg env s b sb).dirty.cameraConstants
      = (s.dirty.cameraConstants
          || decide (s.current.constantDepthBias ≠ env.constantDepthBias b.pipelineState)) := by
  unfold processBatchChecks
  dsimp only
  split_ifs <;> simp

theorem processBatchChecks_pixel_enabled (cfg : CompositorConfig) (env : RenderEnv)
    (s : CompositorState) (b : PipelineBatch) (sb : SourceBatch)
    (h : cfg.enabled.pixelLighting = true) :
    (processBatchChecks cfg env s b sb).current.pixelLightIndex = b.lightIndex ∧
    (processBatchChecks cfg env s b sb).dirty.pixelLightConstants
      = decide (s.current.pixelLightIndex ≠ b.lightIndex) ∧
    (s.current.pixelLightIndex = b.lightIndex →
      (processBatchChecks cfg env s b sb).dirty.pixelLightTextures
        = s.dirty.pixelLightTextures) := by
  unfold processBatchChecks
  dsimp only
  split_ifs <;> simp_all [checkDirtyPixelLight_clean]

theorem processBatchChecks_pixel_disabled (cfg : CompositorConfig) (env : RenderEnv)
    (s : CompositorState) (b : PipelineBatch) (sb : SourceBatch)
    (h : cfg.enabled.pixelLighting = false) :
    (processBatchChecks cfg env s b sb).dirty.pixelLightConstants
        = s.dirty.pixelLightConstants ∧
    (processBatchChecks cfg env s b sb).dirty.pixelLightTextures
        = s.dirty.pixelLightTextures := by
  unfold processBatchChecks
  dsimp only
  split_ifs <;> simp_all

theorem processBatchChecks_vertex_enabled (cfg : CompositorConfig) (env : RenderEnv)
    (s : CompositorState) (b : PipelineBatch) (sb : SourceBatch)
    (h : cfg.enabled.vertexLighting = true) :
    (processBatchChecks cfg env s b sb).current.vertexLights
      = env.vertexLightsOf b.drawableIndex ∧
    (processBatchChecks cfg env s b sb).dirty.vertexLightConstants
      = decide (s.current.vertexLights ≠ env.vertexLightsOf b.drawableIndex) := by
  unfold processBatchChecks
  dsimp only
  split_ifs <;> simp_all

theorem processBatchChecks_vertex_disabled (cfg : CompositorConfig) (env : RenderEnv)
    (s : CompositorState) (b : PipelineBatch) (sb : SourceBatch)
    (h : cfg.enabled.vertexLighting = false) :
    (processBatchChecks cfg env s b sb).dirty.vertexLightConstants
        = s.dirty.vertexLightConstants ∧
    (processBatchChecks cfg env s b sb).current.vertexLights = s.current.vertexLights := by
  unfold processBatchChecks
  dsimp only
  split_ifs <;> simp_all

theorem processBatchChecks_ambient_enabled (cfg : CompositorConfig) (env : RenderEnv)
    (s : CompositorState) (b : PipelineBatch) (sb : SourceBatch)
    (h : cfg.enabled.ambientLighting = true) :
    (processBatchChecks cfg env s b sb).current.lightmapScaleOffset
      = sb.lightmapScaleOffset ∧
    (processBatchChecks cfg env s b sb).dirty.lightmapConstants
      = decide (s.current.lightmapScaleOffset ≠ sb.lightmapScaleOffset) ∧
    (s.current.lightmapScaleOffset = sb.lightmapScaleOffset →
      (processBatchChecks cfg env s b sb).dirty.lightmapTextures
        = s.dirty.lightmapTextures) := by
  unfold processBatchChecks
  dsimp only
  split_ifs <;> simp_all [checkDirtyLightmap_clean]

theorem processBatchChecks_ambient_disabled (cfg : CompositorConfig) (env : RenderEnv)
    (s : CompositorState) (b : PipelineBatch) (sb : SourceBatch)
    (h : cfg.enabled.ambientLighting = false) :
    (processBatchChecks cfg env s b sb).dirty.lightmapConstants
        = s.dirty.lightmapConstants ∧
    (processBatchChecks cfg env s b sb).dirty.lightmapTextures
        = s.dirty.lightmapTextures ∧
    (processBatchChecks cfg env s b sb).current.lightmapScaleOffset
        = s.current.lightmapScaleOffset := by
  unfold processBatchChecks
  dsimp only
  split_ifs <;> simp_all

/-! ## Branch lemmas for `ProcessBatch` -/

theorem IsAnyStateDirty_eq_false (d : DirtyStateFlags) :
    d.IsAnyStateDirty = false ↔
      d.pipelineState = false ∧ d.frameConstants = false ∧ d.cameraConstants = false ∧
      d.pixelLightConstants = false ∧ d.pixelLightTextures = false ∧
      d.vertexLightConstants = false ∧ d.lightmapConstants = false ∧
      d.lightmapTextures = false ∧ d.material = false ∧ d.geometry = false := by
  unfold DirtyStateFlags.IsAnyStateDirty
  simp [Bool.or_eq_false_iff]
  tauto

/-- The run-continuation branch of `ProcessBatch`: with an open group and no
dirty state, only the instancing count and the instance buffer advance. -/
theorem processBatch_continue (cfg : CompositorConfig) (env : RenderEnv)
    (s : CompositorState) (b : PipelineBatch) (sb : SourceBatch)
    (hc : (processBatchChecks cfg env s b sb).instancingGroup.count ≠ 0)
    (hd : (processBatchChecks cfg env s b sb).dirty.IsAnyStateDirty = false) :
    processBatch cfg env s b sb
      = { processBatchChecks cfg env s b sb with
          instancingGroup := { (processBatchChecks cfg env s b sb).instancingGroup with
            count := (processBatchChecks cfg env s b sb).instancingGroup.count + 1 }
          instancingBufferNext := (processBatchChecks cfg env s b sb).instancingBufferNext + 1
          openRunBatches := (processBatchChecks cfg env s b sb).openRunBatches ++ [b] } := by
  have hcond : ¬(((processBatchChecks cfg env s b sb).instancingGroup.count == 0
      || (processBatchChecks cfg env s b sb).dirty.IsAnyStateDirty) = true) := by
    simp [hd]
    simpa using hc
  unfold processBatch
  dsimp only
  rw [if_neg hcond]

/-- The flush branch of `ProcessBatch` (count zero or dirty state): flush the
open group, recommit dirty constants and resources, then begin a new run or
fall back to a direct draw. -/
theorem processBatch_reset (cfg : CompositorConfig) (env : RenderEnv)
    (s : CompositorState) (b : PipelineBatch) (sb : SourceBatch)
    (hr : ((processBatchChecks cfg env s b sb).instancingGroup.count == 0
        || (processBatchChecks cfg env s b sb).dirty.IsAnyStateDirty) = true) :
    processBatch cfg env s b sb
      = (let s0 := processBatchChecks cfg env s b sb
         let s1 := if s0.instancingGroup.count > 0 then drawObjectInstanced env s0 else s0
         let s3 := updateDirtyResources cfg env (updateDirtyConstants cfg s1)
         if instancingEligible cfg env b then
           { s3 with
             instancingGroup :=
               { geometry := s3.current.geometry, start := s3.instancingBufferNext, count := 1 }
             instancingBufferNext := s3.instancingBufferNext + 1
             openRunBatches := [b] }
         else
           drawObject env
             { s3 with queue := s3.queue.commitShaderParameterGroup .SP_OBJECT }) := by
  unfold processBatch
  dsimp only
  rw [if_pos hr]

@[simp]
theorem commitShaderParameterGroup_commands (q : DrawQueueState) (g : ShaderParameterGroup) :
    (q.commitShaderParameterGroup g).commands
      = q.commands ++ [DrawCommand.commitShaderParameterGroup g] := rfl

@[simp]
theorem countDraws_nil : countDraws [] = 0 := rfl

@[simp]
theorem countDirectDraws_nil : countDirectDraws [] = 0 := rfl

@[simp]
theorem countInstancedDraws_nil : countInstancedDraws [] = 0 := rfl

@[simp]
theorem countObjectCommits_nil : countObjectCommits [] = 0 := rfl

@[simp]
theorem countDraws_cons (c : DrawCommand) (l : List DrawCommand) :
    countDraws (c :: l) = countDraws l + (if isDrawCommand c then 1 else 0) := by
  simp [countDraws, List.countP_cons]

@[simp]
theorem countDirectDraws_cons (c : DrawCommand) (l : List DrawCommand) :
    countDirectDraws (c :: l) = countDirectDraws l + (if isDirectDraw c then 1 else 0) := by
  simp [countDirectDraws, List.countP_cons]

@[simp]
theorem countInstancedDraws_cons (c : DrawCommand) (l : List DrawCommand) :
    countInstancedDraws (c :: l)
      = countInstancedDraws l + (if isInstancedDraw c then 1 else 0) := by
  simp [countInstancedDraws, List.countP_cons]

@[simp]
theorem countObjectCommits_cons (c : DrawCommand) (l : List DrawCommand) :
    countObjectCommits (c :: l)
      = countObjectCommits l
        + (if c = DrawCommand.commitShaderParameterGroup ShaderParameterGroup.SP_OBJECT
           then 1 else 0) := by
  simp [countObjectCommits, List.countP_cons]

@[simp]
theorem isDrawCommand_setPipelineState (p : Nat) :
    isDrawCommand (DrawCommand.setPipelineState p) = false := rfl

@[simp]
theorem isDrawCommand_commitGroup (g : ShaderParameterGroup) :
    isDrawCommand (DrawCommand.commitShaderParameterGroup g) = false := rfl

@[simp]
theorem isDrawCommand_addShaderResource (u t : Nat) :
    isDrawCommand (DrawCommand.addShaderResource u t) = false := rfl

@[simp]
theorem isDrawCommand_commitShaderResources :
    isDrawCommand DrawCommand.commitShaderResources = false := rfl

@[simp]
theorem isDrawCommand_setBuffers (v : Nat) (i ib : Option Nat) :
    isDrawCommand (DrawCommand.setBuffers v i ib) = false := rfl

@[simp]
theorem isDrawCommand_draw (a b : Nat) :
    isDrawCommand (DrawCommand.draw a b) = true := rfl

@[simp]
theorem isDrawCommand_drawIndexed (a b : Nat) :
    isDrawCommand (DrawCommand.drawIndexed a b) = true := rfl

@[simp]
theorem isDrawCommand_drawIndexedInstanced (a b c d : Nat) :
    isDrawCommand (DrawCommand.drawIndexedInstanced a b c d) = true := rfl

@[simp]
theorem isDirectDraw_setPipelineState (p : Nat) :
    isDirectDraw (DrawCommand.setPipelineState p) = false := rfl

@[simp]
theorem isDirectDraw_commitGroup (g : ShaderParameterGroup) :
    isDirectDraw (DrawCommand.commitShaderParameterGroup g) = false := rfl

@[simp]
theorem isDirectDraw_addShaderResource (u t : Nat) :
    isDirectDraw (DrawCommand.addShaderResource u t) = false := rfl

@[simp]
theorem isDirectDraw_commitShaderResources :
    isDirectDraw DrawCommand.commitShaderResources = false := rfl

@[simp]
theorem isDirectDraw_setBuffers (v : Nat) (i ib : Option Nat) :
    isDirectDraw (DrawCommand.setBuffers v i ib) = false := rfl

@[simp]
theorem isDirectDraw_draw (a b : Nat) :
    isDirectDraw (DrawCommand.draw a b) = true := rfl

@[simp]
theorem isDirectDraw_drawIndexed (a b : Nat) :
    isDirectDraw (DrawCommand.drawIndexed a b) = true := rfl

@[simp]
theorem isDirectDraw_drawIndexedInstanced (a b c d : Nat) :
    isDirectDraw (DrawCommand.drawIndexedInstanced a b c d) = false := rfl

@[simp]
theorem isInstancedDraw_setPipelineState (p : Nat) :
    isInstancedDraw (DrawCommand.setPipelineState p) = false := rfl

@[simp]
theorem isInstancedDraw_commitGroup (g : ShaderParameterGroup) :
    isInstancedDraw (DrawCommand.commitShaderParameterGroup g) = false := rfl

@[simp]
theorem isInstancedDraw_addShaderResource (u t : Nat) :
    isInstancedDraw (DrawCommand.addShaderResource u t) = false := rfl

@[simp]
theorem isInstancedDraw_commitShaderResources :
    isInstancedDraw DrawCommand.commitShaderResources = false := rfl

@[simp]
theorem isInstancedDraw_setBuffers (v : Nat) (i ib : Option Nat) :
    isInstancedDraw (DrawCommand.setBuffers v i ib) = false := rfl

@[simp]
theorem isInstancedDraw_draw (a b : Nat) :
    isInstancedDraw (DrawCommand.draw a b) = false := rfl

@[simp]
theorem isInstancedDraw_drawIndexed (a b : Nat) :
    isInstancedDraw (DrawCommand.drawIndexed a b) = false := rfl

@[simp]
theorem isInstancedDraw_drawIndexedInstanced (a b c d : Nat) :
    isInstancedDraw (DrawCommand.drawIndexedInstanced a b c d) = true := rfl

@[simp]
theorem countDraws_commitGroup (g : ShaderParameterGroup) :
    countDraws [DrawCommand.commitShaderParameterGroup g] = 0 := rfl

@[simp]
theorem countDirectDraws_commitGroup (g : ShaderParameterGroup) :
    countDirectDraws [DrawCommand.commitShaderParameterGroup g] = 0 := rfl

@[simp]
theorem countInstancedDraws_commitGroup (g : ShaderParameterGroup) :
    countInstancedDraws [DrawCommand.commitShaderParameterGroup g] = 0 := rfl

@[simp]
theorem countObjectCommits_commit_object :
    countObjectCommits
      [DrawCommand.commitShaderParameterGroup ShaderParameterGroup.SP_OBJECT] = 1 := rfl

/-- `FlushDrawCommands` does nothing when no run is open. -/
theorem flushDrawCommands_zero (env : RenderEnv) (s : CompositorState)
    (h : s.instancingGroup.count = 0) :
    flushDrawCommands env s = s := by
  unfold flushDrawCommands
  simp [h]

/-- One `ProcessBatch` step with static instancing disabled and no open run:
the run stays closed and exactly one direct draw with one `SP_OBJECT` commit is
emitted. -/
theorem processBatch_noInstancing (cfg : CompositorConfig) (env : RenderEnv)
    (s : CompositorState) (b : PipelineBatch) (sb : SourceBatch)
    (hsi : cfg.enabled.staticInstancing = false)
    (hc : s.instancingGroup.count = 0) :
    (processBatch cfg env s b sb).instancingGroup.count = 0 ∧
    countDraws (processBatch cfg env s b sb).queue.commands
      = countDraws s.queue.commands + 1 ∧
    countDirectDraws (processBatch cfg env s b sb).queue.commands
      = countDirectDraws s.queue.commands + 1 ∧
    countInstancedDraws (processBatch cfg env s b sb).queue.commands
      = countInstancedDraws s.queue.commands ∧
    countObjectCommits (processBatch cfg env s b sb).queue.commands
      = countObjectCommits s.queue.commands + 1 := by
  have hr : ((processBatchChecks cfg env s b sb).instancingGroup.count == 0
      || (processBatchChecks cfg env s b sb).dirty.IsAnyStateDirty) = true := by
    simp [hc]
  rw [processBatch_reset cfg env s b sb hr]
  have hel : instancingEligible cfg env b = false := by
    simp [instancingEligible, hsi]
  dsimp only
  rw [if_neg (by simp [hc] : ¬(processBatchChecks cfg env s b sb).instancingGroup.count > 0)]
  rw [if_neg (by simp [hel] : ¬instancingEligible cfg env b = true)]
  simp [hc]

/-- Folding a batch list through the compositor with static instancing
disabled: the run stays closed and each batch adds exactly one direct draw and
one `SP_OBJECT` commit. -/
theorem foldLightVolume_counts (cfg : CompositorConfig) (env : RenderEnv)
    (hsi : cfg.enabled.staticInstancing = false) :
    ∀ (l : List PipelineBatch) (s : CompositorState), s.instancingGroup.count = 0 →
      (l.foldl (fun s b => processLightVolumeBatch cfg env s b) s).instancingGroup.count = 0 ∧
      countDraws (l.foldl (fun s b => processLightVolumeBatch cfg env s b) s).queue.commands
        = countDraws s.queue.commands + l.length ∧
      countDirectDraws
          (l.foldl (fun s b => processLightVolumeBatch cfg env s b) s).queue.commands
        = countDirectDraws s.queue.commands + l.length ∧
      countInstancedDraws
          (l.foldl (fun s b => processLightVolumeBatch cfg env s b) s).queue.commands
        = countInstancedDraws s.queue.commands ∧
      countObjectCommits
          (l.foldl (fun s b => processLightVolumeBatch cfg env s b) s).queue.commands
        = countObjectCommits s.queue.commands + l.length := by
  intro l
  induction l with
  | nil => intro s hs; simpa using hs
  | cons b t ih =>
    intro s hs
    have step := processBatch_noInstancing cfg env s b (lightVolumeSourceBatch env b) hsi hs
    rw [show processBatch cfg env s b (lightVolumeSourceBatch env b)
        = processLightVolumeBatch cfg env s b from rfl] at step
    obtain ⟨s1, s2, s3, s4, s5⟩ := step
    have rest := ih (processLightVolumeBatch cfg env s b) s1
    obtain ⟨r1, r2, r3, r4, r5⟩ := rest
    refine ⟨r1, ?_, ?_, ?_, ?_⟩ <;>
      (rw [List.foldl_cons]
       simp only [List.length_cons, r2, r3, r4, r5, s2, s3, s4, s5]
       try omega)

/-- C9: `RenderLightVolumeBatches` constructs its compositor with exactly the
`PixelLight` feature flag, so ambient lighting, vertex lighting and static
instancing are disabled, and every light-volume batch produces exactly one
direct (non-instanced) draw with one `SP_OBJECT` constant-group commit; no
instanced draw is ever emitted and the run count ends at zero. -/
theorem renderLightVolumeBatches_spec (settings : BatchRendererSettings) (env : RenderEnv)
    (gres : List (Nat × Nat)) (batches : List PipelineBatch) :
    mkEnabledFeatureFlags lightVolumeFlags
      = { ambientLighting := false, vertexLighting := false, pixelLighting := true,
          anyLighting := true, staticInstancing := false } ∧
    (renderLightVolumeBatches settings env gres batches).instancingGroup.count = 0 ∧
    countDraws (renderLightVolumeBatches settings env gres batches).queue.commands
      = batches.length ∧
    countDirectDraws (renderLightVolumeBatches settings env gres batches).queue.commands
      = batches.length ∧
    countInstancedDraws (renderLightVolumeBatches settings env gres batches).queue.commands
      = 0 ∧
    countObjectCommits (renderLightVolumeBatches settings env gres batches).queue.commands
      = batches.length := by
  refine ⟨rfl, ?_⟩
  unfold renderLightVolumeBatches
  dsimp only
  have hfold := foldLightVolume_counts
    { settings := settings, enabled := mkEnabledFeatureFlags lightVolumeFlags,
      outputShadowSplit := none, globalResources := gres } env rfl batches initState rfl
  obtain ⟨f1, f2, f3, f4, f5⟩ := hfold
  rw [flushDrawCommands_zero env _ f1]
  refine ⟨f1, ?_, ?_, ?_, ?_⟩ <;>
    (simp only [f2, f3, f4, f5]
     simp [initState, countDraws, countDirectDraws, countInstancedDraws, countObjectCommits])

/-- Witness for C9 at a concrete two-batch light-volume list. -/
theorem renderLightVolumeBatches_spec_witness :
    countDraws (renderLightVolumeBatches {} sampleEnv []
        [litBatch, litBatch]).queue.commands = 2 ∧
    countInstancedDraws (renderLightVolumeBatches {} sampleEnv []
        [litBatch, litBatch]).queue.commands = 0 :=
  ⟨(renderLightVolumeBatches_spec {} sampleEnv [] [litBatch, litBatch]).2.2.1,
   (renderLightVolumeBatches_spec {} sampleEnv [] [litBatch, litBatch]).2.2.2.2.1⟩

/-! ## The instancing-run invariant -/

theorem instInv_processBatch (cfg : CompositorConfig) (env : RenderEnv)
    (s : CompositorState) (b : PipelineBatch) (sb : SourceBatch)
    (h : InstancingRunInvariant s) :
    InstancingRunInvariant (processBatch cfg env s b sb) := by
  obtain ⟨h1, h2, h3⟩ := h
  by_cases hr : ((processBatchChecks cfg env s b sb).instancingGroup.count == 0
      || (processBatchChecks cfg env s b sb).dirty.IsAnyStateDirty) = true
  · rw [processBatch_reset cfg env s b sb hr]
    dsimp only
    by_cases hel : instancingEligible cfg env b = true
    · rw [if_pos hel]
      by_cases hcnt : (processBatchChecks cfg env s b sb).instancingGroup.count > 0
      · rw [if_pos hcnt]
        refine ⟨by simp, by simp, ?_⟩
        intro x hx
        simp at hx
        simp [hx]
      · rw [if_neg hcnt]
        refine ⟨by simp, by simp, ?_⟩
        intro x hx
        simp at hx
        simp [hx]
    · rw [if_neg hel]
      by_cases hcnt : (processBatchChecks cfg env s b sb).instancingGroup.count > 0
      · rw [if_pos hcnt]
        refine ⟨by simp, by simp, ?_⟩
        intro x hx
        simp at hx
      · rw [if_neg hcnt]
        have hz : s.instancingGroup.count = 0 := by
          simp at hcnt
          simpa using hcnt
        have hg : s.openRunBatches = [] := by
          rw [hz] at h1
          exact (List.eq_nil_of_length_eq_zero h1.symm)
        refine ⟨by simp [hg, hz], by simp [hz], ?_⟩
        intro x hx
        simp [hg] at hx
  · have hr2 : ¬((processBatchChecks cfg env s b sb).instancingGroup.count = 0
        ∨ (processBatchChecks cfg env s b sb).dirty.IsAnyStateDirty = true) := by
      simpa [Bool.or_eq_true] using hr
    push_neg at hr2
    obtain ⟨hcn, hdn⟩ := hr2
    have hd : (processBatchChecks cfg env s b sb).dirty.IsAnyStateDirty = false := by
      simpa using hdn
    have hgeom : s.current.geometry = some b.geometry := by
      have hflag := (IsAnyStateDirty_eq_false _).mp hd
      have := hflag.2.2.2.2.2.2.2.2.2
      rw [processBatchChecks_dirty_geometry] at this
      simpa using this
    have hcnt0 : 0 < s.instancingGroup.count := by
      have := hcn
      simp at this
      omega
    rw [processBatch_continue cfg env s b sb hcn hd]
    refine ⟨by simpa using h1, ?_, ?_⟩
    · intro _
      simp [h2 hcnt0, hgeom]
    · intro x hx
      simp at hx
      rcases hx with hx | hx
      · have := h3 x hx
        simpa using this
      · subst hx
        simp [h2 hcnt0, hgeom]

theorem instInv_init : InstancingRunInvariant initState := by
  refine ⟨rfl, ?_, ?_⟩
  · intro h
    simp [initState] at h
  · intro x hx
    simp [initState] at hx

theorem instInv_fold (cfg : CompositorConfig) (env : RenderEnv) :
    ∀ (l : List PipelineBatch) (s : CompositorState), InstancingRunInvariant s →
      InstancingRunInvariant (l.foldl (fun s b => processSceneBatch cfg env s b) s) := by
  intro l
  induction l with
  | nil => intro s hs; exact hs
  | cons b t ih =>
    intro s hs
    rw [List.foldl_cons]
    exact ih _ (instInv_processBatch cfg env s b _ hs)

theorem instInv_flush (env : RenderEnv) (s : CompositorState)
    (h : InstancingRunInvariant s) :
    InstancingRunInvariant (flushDrawCommands env s) := by
  unfold flushDrawCommands
  split_ifs with hc
  · refine ⟨by simp, by simp, ?_⟩
    intro x hx
    simp at hx
  · exact h

theorem instInv_foldLightVolume (cfg : CompositorConfig) (env : RenderEnv) :
    ∀ (l : List PipelineBatch) (s : CompositorState), InstancingRunInvariant s →
      InstancingRunInvariant (l.foldl (fun s b => processLightVolumeBatch cfg env s b) s) := by
  intro l
  induction l with
  | nil => intro s hs; exact hs
  | cons b t ih =>
    intro s hs
    rw [List.foldl_cons]
    exact ih _ (instInv_processBatch cfg env s b _ hs)

theorem flushDrawCommands_count (env : RenderEnv) (t : CompositorState) :
    (flushDrawCommands env t).instancingGroup.count = 0 := by
  unfold flushDrawCommands
  split_ifs with hc
  · simp
  · omega

theorem flushDrawCommands_ghost (env : RenderEnv) (t : CompositorState)
    (h : InstancingRunInvariant t) :
    (flushDrawCommands env t).openRunBatches = [] := by
  unfold flushDrawCommands
  split_ifs with hc
  · simp
  · have hz : t.instancingGroup.count = 0 := by omega
    refine List.eq_nil_of_length_eq_zero ?_
    rw [← h.1, hz]

/-- C3: the compositor holds a single `InstancingGroupState` field, so at most
one unflushed instancing group exists at any time; after any batch prefix the
open group's count equals the number of accumulated (ghost) run members, its
geometry is the cached `current_.geometry_` whenever the count is positive, and
every accumulated member of the open run has the group's geometry — a run
never spans a geometry change. -/
theorem instancingRun_invariant (cfg : CompositorConfig) (env : RenderEnv)
    (batches : List PipelineBatch) :
    InstancingRunInvariant
      (batches.foldl (fun s b => processSceneBatch cfg env s b) initState) :=
  instInv_fold cfg env batches initState instInv_init

/-- C8: `FlushDrawCommands` emits exactly one indexed-instanced draw covering
the instance range `[start_, start_ + count_)` whenever the count is positive
and resets the count to zero (and does nothing otherwise); both `RenderBatches`
overloads (modelled as `renderBatches`) and `RenderLightVolumeBatches` perform
this flush after streaming their batch lists, so they end with an empty
instancing group and no accumulated batch is dropped. -/
theorem flush_spec (cfg : CompositorConfig) (settings : BatchRendererSettings)
    (env : RenderEnv) (gres : List (Nat × Nat)) (s : CompositorState)
    (batches lightVolumeBatches : List PipelineBatch) :
    (0 < s.instancingGroup.count →
      (flushDrawCommands env s).queue.commands
        = s.queue.commands
          ++ [DrawCommand.setBuffers
                (env.geom (s.instancingGroup.geometry.getD 0)).vertexBuffers
                (env.geom (s.instancingGroup.geometry.getD 0)).indexBuffer
                (some env.instancingVertexBuffer),
              DrawCommand.drawIndexedInstanced
                (env.geom (s.instancingGroup.geometry.getD 0)).indexStart
                (env.geom (s.instancingGroup.geometry.getD 0)).indexCount
                s.instancingGroup.start s.instancingGroup.count] ∧
      (flushDrawCommands env s).instancingGroup.count = 0) ∧
    (s.instancingGroup.count = 0 → flushDrawCommands env s = s) ∧
    (renderBatches cfg env batches).instancingGroup.count = 0 ∧
    (renderBatches cfg env batches).openRunBatches = [] ∧
    (renderLightVolumeBatches settings env gres lightVolumeBatches).instancingGroup.count
      = 0 ∧
    (renderLightVolumeBatches settings env gres lightVolumeBatches).openRunBatches = [] := by
  refine ⟨?_, ?_, ?_, ?_, ?_, ?_⟩
  · intro hc
    unfold flushDrawCommands
    rw [if_pos hc]
    simp
  · intro hc
    exact flushDrawCommands_zero env s hc
  · exact flushDrawCommands_count env _
  · exact flushDrawCommands_ghost env _ (instInv_fold cfg env batches initState instInv_init)
  · exact flushDrawCommands_count env _
  · exact flushDrawCommands_ghost env _
      (instInv_foldLightVolume _ env lightVolumeBatches initState instInv_init)

/-- Witness for C8: after two identical static batches the flush emits one
instanced draw of count 2 covering instances `[0, 2)` and leaves the group
empty. -/
theorem flush_spec_witness :
    0 < ([staticBatch, staticBatch].foldl
        (fun s b => processSceneBatch instancingCfg sampleEnv s b)
        initState).instancingGroup.count ∧
    (flushDrawCommands sampleEnv
        ([staticBatch, staticBatch].foldl
          (fun s b => processSceneBatch instancingCfg sampleEnv s b)
          initState)).instancingGroup.count = 0 := by
  refine ⟨by decide, ?_⟩
  exact ((flush_spec instancingCfg {} sampleEnv []
    ([staticBatch, staticBatch].foldl
      (fun s b => processSceneBatch instancingCfg sampleEnv s b) initState) [] []).1
    (by decide)).2

/-- C6: at a flush point (no open run or dirty state) a new instancing run is
begun iff static instancing is enabled for the pass, the batch's geometry type
is `GEOM_STATIC`, and the batch's geometry has a non-null index buffer; when
beginning, the run gets count 1 and the batch's geometry and no direct draw is
emitted; when any condition fails, the compositor instead commits the
`SP_OBJECT` constant group and emits exactly one non-instanced draw, indexed if
the geometry has an index buffer and non-indexed otherwise. -/
theorem beginInstancing_iff (cfg : CompositorConfig) (env : RenderEnv)
    (s : CompositorState) (b : PipelineBatch) (sb : SourceBatch)
    (hr : ((processBatchChecks cfg env s b sb).instancingGroup.count == 0
        || (processBatchChecks cfg env s b sb).dirty.IsAnyStateDirty) = true) :
    ((processBatch cfg env s b sb).instancingGroup.count > 0 ↔
      (cfg.enabled.staticInstancing = true ∧ b.geometryType = GeometryType.GEOM_STATIC ∧
        (env.geom b.geometry).indexBuffer.isSome = true)) ∧
    (instancingEligible cfg env b = true →
      (processBatch cfg env s b sb).instancingGroup.count = 1 ∧
      (processBatch cfg env s b sb).instancingGroup.geometry = some b.geometry ∧
      countDirectDraws (processBatch cfg env s b sb).queue.commands
        = countDirectDraws s.queue.commands ∧
      countObjectCommits (processBatch cfg env s b sb).queue.commands
        = countObjectCommits s.queue.commands) ∧
    (instancingEligible cfg env b = false →
      (processBatch cfg env s b sb).instancingGroup.count = 0 ∧
      countDirectDraws (processBatch cfg env s b sb).queue.commands
        = countDirectDraws s.queue.commands + 1 ∧
      countObjectCommits (processBatch cfg env s b sb).queue.commands
        = countObjectCommits s.queue.commands + 1 ∧
      (processBatch cfg env s b sb).queue.commands.getLast?
        = some (if (env.geom b.geometry).indexBuffer.isSome then
            DrawCommand.drawIndexed (env.geom b.geometry).indexStart
              (env.geom b.geometry).indexCount
          else
            DrawCommand.draw (env.geom b.geometry).vertexStart
              (env.geom b.geometry).vertexCount)) := by
  rw [processBatch_reset cfg env s b sb hr]
  dsimp only
  by_cases hel : instancingEligible cfg env b = true
  · rw [if_pos hel]
    have helprop : cfg.enabled.staticInstancing = true
        ∧ b.geometryType = GeometryType.GEOM_STATIC
        ∧ (env.geom b.geometry).indexBuffer.isSome = true := by
      simpa [instancingEligible, and_assoc] using hel
    refine ⟨by simp [helprop], ?_, ?_⟩
    · intro _
      by_cases hcnt : (processBatchChecks cfg env s b sb).instancingGroup.count > 0
      · rw [if_pos hcnt]
        simp [hcnt]
      · rw [if_neg hcnt]
        simp [hcnt]
    · intro hne
      rw [hel] at hne
      cases hne
  · rw [if_neg hel]
    have hel2 : instancingEligible cfg env b = false := by
      simpa using hel
    have helprop : ¬(cfg.enabled.staticInstancing = true
        ∧ b.geometryType = GeometryType.GEOM_STATIC
        ∧ (env.geom b.geometry).indexBuffer.isSome = true) := by
      intro hco
      apply hel
      simp [instancingEligible, hco.1, hco.2.1, hco.2.2]
    constructor
    · by_cases hcnt : (processBatchChecks cfg env s b sb).instancingGroup.count > 0
      · rw [if_pos hcnt]
        simp [helprop]
      · rw [if_neg hcnt]
        have hz : s.instancingGroup.count = 0 := by
          simp at hcnt
          simpa using hcnt
        simp [hz, helprop]
    refine ⟨?_, ?_⟩
    · intro hco
      rw [hel2] at hco
      cases hco
    · intro _
      by_cases hcnt : (processBatchChecks cfg env s b sb).instancingGroup.count > 0
      · rw [if_pos hcnt]
        refine ⟨by simp, by simp [hcnt], by simp [hcnt], ?_⟩
        rw [drawObject_commands, List.getLast?_concat]
        simp
      · rw [if_neg hcnt]
        refine ⟨?_, by simp [hcnt], by simp [hcnt], ?_⟩
        · have hz : s.instancingGroup.count = 0 := by
            simp at hcnt
            simpa using hcnt
          simp [hz]
        · rw [drawObject_commands, List.getLast?_concat]
          simp

/-- Witness for C6 at a skinned batch: ineligible, so no run is begun. -/
theorem beginInstancing_iff_witness :
    instancingEligible instancingCfg sampleEnv skinnedBatchSameGeometry = false ∧
    (processBatch instancingCfg sampleEnv initState skinnedBatchSameGeometry
        {}).instancingGroup.count = 0 := by
  refine ⟨by decide, ?_⟩
  exact ((beginInstancing_iff instancingCfg sampleEnv initState skinnedBatchSameGeometry {}
    (by decide)).2.2 (by decide)).1

/-! ## Dirty-flag evolution across a full `ProcessBatch` -/

/-- After a full `ProcessBatch`, the light/lightmap dirty flags are exactly
those computed by the checks, and the pipeline-state, frame and camera flags
are always clear. -/
theorem processBatch_dirty_flags (cfg : CompositorConfig) (env : RenderEnv)
    (s : CompositorState) (b : PipelineBatch) (sb : SourceBatch) :
    (processBatch cfg env s b sb).dirty.pixelLightConstants
      = (processBatchChecks cfg env s b sb).dirty.pixelLightConstants ∧
    (processBatch cfg env s b sb).dirty.pixelLightTextures
      = (processBatchChecks cfg env s b sb).dirty.pixelLightTextures ∧
    (processBatch cfg env s b sb).dirty.vertexLightConstants
      = (processBatchChecks cfg env s b sb).dirty.vertexLightConstants ∧
    (processBatch cfg env s b sb).dirty.lightmapConstants
      = (processBatchChecks cfg env s b sb).dirty.lightmapConstants ∧
    (processBatch cfg env s b sb).dirty.lightmapTextures
      = (processBatchChecks cfg env s b sb).dirty.lightmapTextures ∧
    (processBatch cfg env s b sb).dirty.pipelineState = false ∧
    (processBatch cfg env s b sb).dirty.frameConstants = false ∧
    (processBatch cfg env s b sb).dirty.cameraConstants = false := by
  by_cases hr : ((processBatchChecks cfg env s b sb).instancingGroup.count == 0
      || (processBatchChecks cfg env s b sb).dirty.IsAnyStateDirty) = true
  · rw [processBatch_reset cfg env s b sb hr]
    dsimp only
    by_cases hel : instancingEligible cfg env b = true
    · rw [if_pos hel]
      by_cases hcnt : (processBatchChecks cfg env s b sb).instancingGroup.count > 0
      · rw [if_pos hcnt]
        simp
      · rw [if_neg hcnt]
        simp
    · rw [if_neg hel]
      by_cases hcnt : (processBatchChecks cfg env s b sb).instancingGroup.count > 0
      · rw [if_pos hcnt]
        simp
      · rw [if_neg hcnt]
        simp
  · have hr2 : ¬((processBatchChecks cfg env s b sb).instancingGroup.count = 0
        ∨ (processBatchChecks cfg env s b sb).dirty.IsAnyStateDirty = true) := by
      simpa [Bool.or_eq_true] using hr
    push_neg at hr2
    have hd : (processBatchChecks cfg env s b sb).dirty.IsAnyStateDirty = false := by
      simpa using hr2.2
    rw [processBatch_continue cfg env s b sb hr2.1 hd]
    have hflag := (IsAnyStateDirty_eq_false _).mp hd
    exact ⟨rfl, rfl, rfl, rfl, rfl, hflag.1, hflag.2.1, hflag.2.2.1⟩

/-- The cached `current_` state after a full `ProcessBatch` is the one the
checks produced. -/
theorem processBatch_current (cfg : CompositorConfig) (env : RenderEnv)
    (s : CompositorState) (b : PipelineBatch) (sb : SourceBatch) :
    (processBatch cfg env s b sb).current = (processBatchChecks cfg env s b sb).current := by
  by_cases hr : ((processBatchChecks cfg env s b sb).instancingGroup.count == 0
      || (processBatchChecks cfg env s b sb).dirty.IsAnyStateDirty) = true
  · rw [processBatch_reset cfg env s b sb hr]
    dsimp only
    by_cases hel : instancingEligible cfg env b = true
    · rw [if_pos hel]
      by_cases hcnt : (processBatchChecks cfg env s b sb).instancingGroup.count > 0
      · rw [if_pos hcnt]
        simp
      · rw [if_neg hcnt]
        simp
    · rw [if_neg hel]
      by_cases hcnt : (processBatchChecks cfg env s b sb).instancingGroup.count > 0
      · rw [if_pos hcnt]
        simp
      · rw [if_neg hcnt]
        simp
  · have hr2 : ¬((processBatchChecks cfg env s b sb).instancingGroup.count = 0
        ∨ (processBatchChecks cfg env s b sb).dirty.IsAnyStateDirty = true) := by
      simpa [Bool.or_eq_true] using hr
    push_neg at hr2
    have hd : (processBatchChecks cfg env s b sb).dirty.IsAnyStateDirty = false := by
      simpa using hr2.2
    rw [processBatch_continue cfg env s b sb hr2.1 hd]

theorem disabledClean_init (cfg : CompositorConfig) : DisabledClean cfg initState := by
  refine ⟨fun _ => ⟨rfl, rfl⟩, fun _ => rfl, fun _ => ⟨rfl, rfl⟩⟩

theorem disabledClean_processBatch (cfg : CompositorConfig) (env : RenderEnv)
    (s : CompositorState) (b : PipelineBatch) (sb : SourceBatch)
    (h : DisabledClean cfg s) :
    DisabledClean cfg (processBatch cfg env s b sb) := by
  obtain ⟨hp, hv, ha⟩ := h
  obtain ⟨f1, f2, f3, f4, f5, -, -, -⟩ := processBatch_dirty_flags cfg env s b sb
  refine ⟨?_, ?_, ?_⟩
  · intro hh
    obtain ⟨c1, c2⟩ := processBatchChecks_pixel_disabled cfg env s b sb hh
    obtain ⟨d1, d2⟩ := hp hh
    exact ⟨by rw [f1, c1, d1], by rw [f2, c2, d2]⟩
  · intro hh
    obtain ⟨c1, -⟩ := processBatchChecks_vertex_disabled cfg env s b sb hh
    rw [f3, c1, hv hh]
  · intro hh
    obtain ⟨c1, c2, -⟩ := processBatchChecks_ambient_disabled cfg env s b sb hh
    obtain ⟨d1, d2⟩ := ha hh
    exact ⟨by rw [f4, c1, d1], by rw [f5, c2, d2]⟩

/-- C2 counterexample: dirty evaluation is not idempotent as claimed.  With
pixel lighting enabled, light 0 carrying a ramp texture, processing `litBatch`
once sets `pixelLightTextures_`; re-presenting the identical batch leaves the
light index unchanged, so `CheckDirtyPixelLight` early-returns without
clearing the retained texture flag (no code path resets it) and the second
call's dirty checks still report `IsAnyStateDirty = true`. -/
theorem dirty_idempotent_counterexample :
    (processSceneBatch pixelLightCfg sampleEnv initState litBatch).dirty.pixelLightTextures
      = true ∧
    (processBatchChecks pixelLightCfg sampleEnv
        (processSceneBatch pixelLightCfg sampleEnv initState litBatch) litBatch
        (sampleEnv.sourceBatchOf litBatch.drawableIndex
          litBatch.sourceBatchIndex)).dirty.IsAnyStateDirty = true := by
  constructor
  · decide
  · decide

/-- C2 (amended): re-presenting the identical `PipelineBatch` (same pipeline
state, material, geometry, light index, vertex-light set, lightmap
scale/offset) makes the second call's dirty checks report nothing dirty,
provided the first call left the retained texture-dirty flags
(`pixelLightTextures_`, `lightmapTextures_`) clear and the dirty flags of
disabled features were clear beforehand; the only effect of the second call
when a run is open is the instancing count (and instance buffer) increment. -/
theorem dirty_idempotent (cfg : CompositorConfig) (env : RenderEnv)
    (s : CompositorState) (b : PipelineBatch) (sb : SourceBatch)
    (h1 : (processBatch cfg env s b sb).dirty.pixelLightTextures = false)
    (h2 : (processBatch cfg env s b sb).dirty.lightmapTextures = false)
    (hd : DisabledClean cfg s) :
    (processBatchChecks cfg env (processBatch cfg env s b sb) b sb).dirty.IsAnyStateDirty
      = false ∧
    (0 < (processBatch cfg env s b sb).instancingGroup.count →
      (processBatch cfg env (processBatch cfg env s b sb) b sb).queue
          = (processBatch cfg env s b sb).queue ∧
      (processBatch cfg env (processBatch cfg env s b sb) b sb).instancingGroup.count
          = (processBatch cfg env s b sb).instancingGroup.count + 1 ∧
      (processBatch cfg env (processBatch cfg env s b sb) b sb).instancingGroup.geometry
          = (processBatch cfg env s b sb).instancingGroup.geometry ∧
      (processBatch cfg env (processBatch cfg env s b sb) b sb).instancingGroup.start
          = (processBatch cfg env s b sb).instancingGroup.start) := by
  obtain ⟨f1, f2, f3, f4, f5, f6, f7, f8⟩ := processBatch_dirty_flags cfg env s b sb
  have hcur := processBatch_current cfg env s b sb
  obtain ⟨hp, hv, ha⟩ := hd
  have hclean :
      (processBatchChecks cfg env (processBatch cfg env s b sb) b sb).dirty.IsAnyStateDirty
        = false := by
    rw [IsAnyStateDirty_eq_false]
    refine ⟨?_, ?_, ?_, ?_, ?_, ?_, ?_, ?_, ?_, ?_⟩
    · rw [processBatchChecks_dirty_pipelineState, hcur]
      simp
    · rw [processBatchChecks_dirty_frame, f7]
    · rw [processBatchChecks_dirty_camera, f8, hcur]
      simp
    · by_cases he : cfg.enabled.pixelLighting = true
      · obtain ⟨e1, e2, -⟩ := processBatchChecks_pixel_enabled cfg env
          (processBatch cfg env s b sb) b sb he
        rw [e2, hcur]
        have := (processBatchChecks_pixel_enabled cfg env s b sb he).1
        simp [this]
      · have he2 : cfg.enabled.pixelLighting = false := by simpa using he
        obtain ⟨e1, -⟩ := processBatchChecks_pixel_disabled cfg env
          (processBatch cfg env s b sb) b sb he2
        rw [e1, f1, (processBatchChecks_pixel_disabled cfg env s b sb he2).1, (hp he2).1]
    · by_cases he : cfg.enabled.pixelLighting = true
      · obtain ⟨e1, e2, e3⟩ := processBatchChecks_pixel_enabled cfg env
          (processBatch cfg env s b sb) b sb he
        rw [e3 (by rw [hcur, (processBatchChecks_pixel_enabled cfg env s b sb he).1]), h1]
      · have he2 : cfg.enabled.pixelLighting = false := by simpa using he
        rw [(processBatchChecks_pixel_disabled cfg env
          (processBatch cfg env s b sb) b sb he2).2, h1]
    · by_cases he : cfg.enabled.vertexLighting = true
      · obtain ⟨e1, e2⟩ := processBatchChecks_vertex_enabled cfg env
          (processBatch cfg env s b sb) b sb he
        rw [e2, hcur]
        have := (processBatchChecks_vertex_enabled cfg env s b sb he).1
        simp [this]
      · have he2 : cfg.enabled.vertexLighting = false := by simpa using he
        rw [(processBatchChecks_vertex_disabled cfg env
            (processBatch cfg env s b sb) b sb he2).1, f3,
          (processBatchChecks_vertex_disabled cfg env s b sb he2).1, hv he2]
    · by_cases he : cfg.enabled.ambientLighting = true
      · obtain ⟨e1, e2, -⟩ := processBatchChecks_ambient_enabled cfg env
          (processBatch cfg env s b sb) b sb he
        rw [e2, hcur]
        have := (processBatchChecks_ambient_enabled cfg env s b sb he).1
        simp [this]
      · have he2 : cfg.enabled.ambientLighting = false := by simpa using he
        rw [(processBatchChecks_ambient_disabled cfg env
            (processBatch cfg env s b sb) b sb he2).1, f4,
          (processBatchChecks_ambient_disabled cfg env s b sb he2).1, (ha he2).1]
    · by_cases he : cfg.enabled.ambientLighting = true
      · obtain ⟨e1, e2, e3⟩ := processBatchChecks_ambient_enabled cfg env
          (processBatch cfg env s b sb) b sb he
        rw [e3 (by rw [hcur, (processBatchChecks_ambient_enabled cfg env s b sb he).1]), h2]
      · have he2 : cfg.enabled.ambientLighting = false := by simpa using he
        rw [(processBatchChecks_ambient_disabled cfg env
          (processBatch cfg env s b sb) b sb he2).2.1, h2]
    · rw [processBatchChecks_dirty_material, hcur]
      simp
    · rw [processBatchChecks_dirty_geometry, hcur]
      simp
  refine ⟨hclean, ?_⟩
  intro hcnt
  have hcn : (processBatchChecks cfg env (processBatch cfg env s b sb) b
      sb).instancingGroup.count ≠ 0 := by
    rw [processBatchChecks_group]
    omega
  rw [processBatch_continue cfg env (processBatch cfg env s b sb) b sb hcn hclean]
  refine ⟨by simp, by simp, by simp, by simp⟩

/-- Witness for C2: a static batch processed twice from a fresh compositor
with instancing enabled; the second evaluation reports nothing dirty and only
increments the open run's count. -/
theorem dirty_idempotent_witness :
    (processBatchChecks instancingCfg sampleEnv
        (processBatch instancingCfg sampleEnv initState staticBatch {}) staticBatch
        {}).dirty.IsAnyStateDirty = false ∧
    (processBatch instancingCfg sampleEnv
        (processBatch instancingCfg sampleEnv initState staticBatch {}) staticBatch
        {}).instancingGroup.count
      = (processBatch instancingCfg sampleEnv initState staticBatch
          {}).instancingGroup.count + 1 := by
  have h := dirty_idempotent instancingCfg sampleEnv initState staticBatch {}
    (by decide) (by decide) (disabledClean_init instancingCfg)
  exact ⟨h.1, (h.2 (by decide)).2.1⟩

/-! ## Draw-count vs. run-partition lockstep (claim C1) -/

theorem flushDrawCommands_countDraws (env : RenderEnv) (t : CompositorState) :
    countDraws (flushDrawCommands env t).queue.commands
      = countDraws t.queue.commands
        + (if 0 < t.instancingGroup.count then 1 else 0) := by
  unfold flushDrawCommands
  split_ifs with hc
  · simp
  · simp

theorem runCountRel_step (cfg : CompositorConfig) (env : RenderEnv)
    (batches : List PipelineBatch) (hcons : GeometryTypeConsistent batches)
    (m : CompositorState) (st : SpecRunState) (b : PipelineBatch) (hb : b ∈ batches)
    (hrel : RunCountRel cfg env batches m st) :
    RunCountRel cfg env batches (processSceneBatch cfg env m b)
      (specStep cfg env
        (processBatchChecks cfg env m b
          (env.sourceBatchOf b.drawableIndex b.sourceBatchIndex)).dirty.IsAnyStateDirty
        b st) := by
  obtain ⟨hdraws, hopen, hgeo⟩ := hrel
  unfold processSceneBatch
  by_cases hr : ((processBatchChecks cfg env m b
      (env.sourceBatchOf b.drawableIndex b.sourceBatchIndex)).instancingGroup.count == 0
      || (processBatchChecks cfg env m b
        (env.sourceBatchOf b.drawableIndex b.sourceBatchIndex)).dirty.IsAnyStateDirty)
      = true
  · -- flush point: either a new run is begun or a direct draw is emitted
    have hcond : (st.openRun
        && !((processBatchChecks cfg env m b
          (env.sourceBatchOf b.drawableIndex b.sourceBatchIndex)).dirty.IsAnyStateDirty)
        && decide (st.runGeometry = some b.geometry)) = false := by
      by_cases hdirty : (processBatchChecks cfg env m b
          (env.sourceBatchOf b.drawableIndex b.sourceBatchIndex)).dirty.IsAnyStateDirty
          = true
      · simp [hdirty]
      · have hz : m.instancingGroup.count = 0 := by
          have hr2 := hr
          rw [Bool.or_eq_true] at hr2
          rcases hr2 with hx | hx
          · simpa using hx
          · exact absurd hx hdirty
        have hof : st.openRun = false := by
          rcases Bool.eq_false_or_eq_true st.openRun with h | h
          · exact absurd (hopen.mpr h) (by omega)
          · exact h
        simp [hof]
    rw [processBatch_reset cfg env m b
      (env.sourceBatchOf b.drawableIndex b.sourceBatchIndex) hr]
    dsimp only
    by_cases hel : instancingEligible cfg env b = true
    · -- begin a new run
      have helprop := hel
      rw [instancingEligible] at helprop
      simp only [Bool.and_eq_true, decide_eq_true_eq] at helprop
      have hspec : specStep cfg env
          (processBatchChecks cfg env m b
            (env.sourceBatchOf b.drawableIndex b.sourceBatchIndex)).dirty.IsAnyStateDirty
          b st
          = { count := st.count + 1, openRun := true, runGeometry := some b.geometry } := by
        unfold specStep
        rw [if_pos hel, if_neg]
        rw [hcond]
        simp
      rw [hspec, if_pos hel]
      by_cases hflush : (processBatchChecks cfg env m b
          (env.sourceBatchOf b.drawableIndex b.sourceBatchIndex)).instancingGroup.count > 0
      · have hflush2 : 0 < m.instancingGroup.count := by simpa using hflush
        rw [if_pos hflush]
        refine ⟨?_, by simp, ?_⟩
        · simp only [if_pos hflush2] at hdraws
          simp
          omega
        · intro _
          refine ⟨by simp, by simp, b, hb, by simp, helprop.1.2, helprop.1.1, helprop.2⟩
      · have hflush2 : ¬ 0 < m.instancingGroup.count := by simpa using hflush
        rw [if_neg hflush]
        refine ⟨?_, by simp, ?_⟩
        · simp only [if_neg hflush2] at hdraws
          simp
          omega
        · intro _
          refine ⟨by simp, by simp, b, hb, by simp, helprop.1.2, helprop.1.1, helprop.2⟩
    · -- direct-draw fallback
      have hel2 : instancingEligible cfg env b = false := by simpa using hel
      have hspec : specStep cfg env
          (processBatchChecks cfg env m b
            (env.sourceBatchOf b.drawableIndex b.sourceBatchIndex)).dirty.IsAnyStateDirty
          b st
          = { count := st.count + 1, openRun := false, runGeometry := none } := by
        unfold specStep
        rw [if_neg]
        rw [hel2]
        simp
      rw [hspec, if_neg hel]
      by_cases hflush : (processBatchChecks cfg env m b
          (env.sourceBatchOf b.drawableIndex b.sourceBatchIndex)).instancingGroup.count > 0
      · have hflush2 : 0 < m.instancingGroup.count := by simpa using hflush
        rw [if_pos hflush]
        refine ⟨?_, by simp, ?_⟩
        · simp only [if_pos hflush2] at hdraws
          simp
          omega
        · intro hco
          simp at hco
      · have hflush2 : ¬ 0 < m.instancingGroup.count := by simpa using hflush
        have hz : m.instancingGroup.count = 0 := by omega
        rw [if_neg hflush]
        refine ⟨?_, by simp [hz], ?_⟩
        · simp only [if_neg hflush2] at hdraws
          simp [hz]
          omega
        · intro hco
          simp [hz] at hco
  · -- continuation: the open run absorbs the batch
    have hr2 : ¬((processBatchChecks cfg env m b
        (env.sourceBatchOf b.drawableIndex b.sourceBatchIndex)).instancingGroup.count = 0
        ∨ (processBatchChecks cfg env m b
          (env.sourceBatchOf b.drawableIndex b.sourceBatchIndex)).dirty.IsAnyStateDirty
          = true) := by
      simpa [Bool.or_eq_true] using hr
    push_neg at hr2
    have hcn := hr2.1
    have hD : (processBatchChecks cfg env m b
        (env.sourceBatchOf b.drawableIndex b.sourceBatchIndex)).dirty.IsAnyStateDirty
        = false := by
      simpa using hr2.2
    have hmc : 0 < m.instancingGroup.count := by
      have := hcn
      simp at this
      omega
    have hgeom : m.current.geometry = some b.geometry := by
      have hflag := (IsAnyStateDirty_eq_false _).mp hD
      have hg := hflag.2.2.2.2.2.2.2.2.2
      rw [processBatchChecks_dirty_geometry] at hg
      simpa using hg
    obtain ⟨hrg, hgc, h0, hh0mem, hh0geo, hh0static, hh0si, hh0ib⟩ := hgeo hmc
    have hh0b : h0.geometry = b.geometry := by
      have : some h0.geometry = some b.geometry := by
        rw [hh0geo, hgc, hgeom]
      exact Option.some.inj this
    have hel : instancingEligible cfg env b = true := by
      have hbt : b.geometryType = GeometryType.GEOM_STATIC := by
        rw [← hcons h0 hh0mem b hb hh0b]
        exact hh0static
      rw [instancingEligible]
      simp [hh0si, hbt, ← hh0b, hh0ib]
    have hspec : specStep cfg env
        (processBatchChecks cfg env m b
          (env.sourceBatchOf b.drawableIndex b.sourceBatchIndex)).dirty.IsAnyStateDirty
        b st = st := by
      unfold specStep
      rw [if_pos hel, if_pos]
      rw [hD]
      have hor : st.openRun = true := hopen.mp hmc
      have hrgb : st.runGeometry = some b.geometry := by
        rw [hrg, hgc, hgeom]
      simp [hor, hrgb]
    rw [hspec, processBatch_continue cfg env m b
      (env.sourceBatchOf b.drawableIndex b.sourceBatchIndex) hcn hD]
    refine ⟨?_, ?_, ?_⟩
    · simp only [if_pos hmc] at hdraws
      simp
      omega
    · simp [hopen.mp hmc]
    · intro _
      refine ⟨by simpa using hrg, ?_, h0, hh0mem, by simpa using hh0geo,
        hh0static, hh0si, hh0ib⟩
      simp
      rw [← hgeom]
      exact hgc

theorem runCountRel_fold (cfg : CompositorConfig) (env : RenderEnv)
    (batches : List PipelineBatch) (hcons : GeometryTypeConsistent batches) :
    ∀ (l : List PipelineBatch) (m : CompositorState) (st : SpecRunState),
      (∀ x ∈ l, x ∈ batches) → RunCountRel cfg env batches m st →
      RunCountRel cfg env batches
        (l.foldl (fun s b => processSceneBatch cfg env s b) m)
        (specRunAux cfg env l m st) := by
  intro l
  induction l with
  | nil => intro m st _ hrel; exact hrel
  | cons b t ih =>
    intro m st hsub hrel
    rw [List.foldl_cons]
    unfold specRunAux
    exact ih _ _ (fun x hx => hsub x (List.mem_cons_of_mem b hx))
      (runCountRel_step cfg env batches hcons m st b (hsub b (List.mem_cons_self b t)) hrel)

theorem runCountRel_init (cfg : CompositorConfig) (env : RenderEnv)
    (batches : List PipelineBatch) :
    RunCountRel cfg env batches initState {} := by
  refine ⟨rfl, ?_, ?_⟩
  · constructor
    · intro h
      simp [initState] at h
    · intro h
      cases h
  · intro h
    simp [initState] at h

/-- C1 counterexample: the draw count does not equal the claimed partition
count on every batch sequence.  A skinned batch sharing geometry, material and
pipeline state with the preceding static batch is not instancing-eligible, yet
it leaves no dirty state, so the compositor absorbs it into the open run: the
machine emits 1 draw where the claimed partition (one run {static} plus one
draw for the ineligible skinned batch) counts 2. -/
theorem drawCount_partition_counterexample :
    countDraws (renderBatches instancingCfg sampleEnv
        [staticBatch, skinnedBatchSameGeometry]).queue.commands = 1 ∧
    specRunCount instancingCfg sampleEnv [staticBatch, skinnedBatchSameGeometry] = 2 ∧
    countDraws (renderBatches instancingCfg sampleEnv
        [staticBatch, skinnedBatchSameGeometry]).queue.commands
      ≠ specRunCount instancingCfg sampleEnv [staticBatch, skinnedBatchSameGeometry] := by
  refine ⟨by decide, by decide, by decide⟩

/-- C1 (amended): for every batch sequence in which batches sharing a geometry
pointer agree on the geometry type, the number of emitted draw operations of
`renderBatches` (direct plus instanced, with the mandatory final flush) equals
the number of contiguous runs obtained by partitioning the input by
(no dirty state ∧ same geometry ∧ instancing-eligible), plus one draw per
batch that is not instancing-eligible (`specRunCount`). -/
theorem drawCount_partition (cfg : CompositorConfig) (env : RenderEnv)
    (batches : List PipelineBatch) (hcons : GeometryTypeConsistent batches) :
    countDraws (renderBatches cfg env batches).queue.commands
      = specRunCount cfg env batches := by
  have hrel := runCountRel_fold cfg env batches hcons batches initState {}
    (fun x hx => hx) (runCountRel_init cfg env batches)
  obtain ⟨hdraws, -, -⟩ := hrel
  unfold renderBatches specRunCount
  rw [flushDrawCommands_countDraws]
  exact hdraws

/-- Witness for C1: the spec's end-to-end example — two static batches sharing
geometry 1 then a skinned batch on geometry 2 — emits one instanced draw for
the run {a, b} plus one direct draw for c, matching the partition count 2. -/
theorem drawCount_partition_witness :
    countDraws (renderBatches instancingCfg sampleEnv
        [staticBatch, staticBatch, skinnedBatchOtherGeometry]).queue.commands = 2 ∧
    specRunCount instancingCfg sampleEnv
        [staticBatch, staticBatch, skinnedBatchOtherGeometry] = 2 := by
  constructor
  · rw [drawCount_partition instancingCfg sampleEnv
      [staticBatch, staticBatch, skinnedBatchOtherGeometry]
      (by unfold GeometryTypeConsistent; decide)]
    decide
  · decide

end BatchRendererProof
